import Mathlib

/-!
Verification of the Wheels Unisabana ride-sharing backend.

This file shallowly embeds the backend handlers that govern trip seat
accounting, reservations, authentication and password reset, and the
vehicle lifecycle, and proves (or refutes) the specification claims
about them.  Sources embedded:

* src/backend/src/routes/trips.js   — trip engine (reservations, confirm,
  reject, cancel, trip cancel, capacity normalization)
* src/unnamed/part_011              — auth routes (register, forgot-password,
  reset-password)
* src/unnamed/part_007              — requireAuth middleware
* src/backend/src/routes/vehicles.js — vehicle deletion
* src/unnamed/part_013              — maps routes (for the route table)

Mongoose documents are embedded as Lean structures; object ids are `Nat`,
timestamps are `Int` (milliseconds), JS numbers that only ever hold
integral values are `Int`/`Nat`, and coordinates are `Rat`.
-/

namespace Wheels

/-! ### Kernel-computable string helpers

The JS handlers use `trim`, `toLowerCase`, `includes`, `split`,
`startsWith`, `endsWith` and `slice`.  Core's `String` versions are
implemented over `Substring` positions by well-founded recursion, which
the kernel cannot evaluate, so concrete witnesses could not be checked
with `decide`.  These equivalents work structurally on the character
list. -/

/-- `s.trim()`: strip leading and trailing whitespace. -/
def jsTrim (s : String) : String :=
  ⟨((s.data.dropWhile Char.isWhitespace).reverse.dropWhile Char.isWhitespace).reverse⟩

/-- `s.toLowerCase()`. -/
def jsToLower (s : String) : String := ⟨s.data.map Char.toLower⟩

/-- `s.includes(c)` for a one-character needle. -/
def jsIncludes (s : String) (c : Char) : Bool := s.data.any (fun d => d == c)

def jsSplitAux (c : Char) : List Char → List Char → List (List Char)
  | [], acc => [acc.reverse]
  | x :: xs, acc =>
    if x == c then acc.reverse :: jsSplitAux c xs []
    else jsSplitAux c xs (x :: acc)

/-- `s.split(c)` for a one-character separator. -/
def jsSplit (s : String) (c : Char) : List String :=
  (jsSplitAux c s.data []).map (fun l => ⟨l⟩)

/-- `s.startsWith(p)`. -/
def jsStartsWith (s p : String) : Bool := p.data.isPrefixOf s.data

/-- `s.endsWith(p)`. -/
def jsEndsWith (s p : String) : Bool := p.data.isSuffixOf s.data

/-- `s.slice(n)` (ASCII inputs, so code units are characters). -/
def jsDrop (s : String) (n : Nat) : String := ⟨s.data.drop n⟩

instance {ε α : Type} [DecidableEq ε] [DecidableEq α] : DecidableEq (Except ε α) :=
  fun a b =>
    match a, b with
    | .error e, .error f =>
      if h : e = f then .isTrue (congrArg Except.error h)
      else .isFalse (fun c => h (Except.error.inj c))
    | .ok x, .ok y =>
      if h : x = y then .isTrue (congrArg Except.ok h)
      else .isFalse (fun c => h (Except.ok.inj c))
    | .error _, .ok _ => .isFalse (fun c => Except.noConfusion c)
    | .ok _, .error _ => .isFalse (fun c => Except.noConfusion c)

/-! ### Trip data model (src/backend/src/routes/trips.js) -/

inductive TripStatus where
  | scheduled
  | full
  | cancelled
  | completed
deriving DecidableEq, Repr

inductive ResStatus where
  | pending
  | confirmed
  | rejected
  | cancelled
deriving DecidableEq, Repr

/-- Raw pickup-point payload as it arrives in a request body.  `none`
models a missing field; a `none` coordinate also models a value whose
`Number(...)` coercion is not finite. -/
structure PickupInput where
  name : Option String
  description : Option String
  lat : Option Rat
  lng : Option Rat
deriving DecidableEq, Repr

structure PickupPoint where
  name : String
  description : Option String
  lat : Rat
  lng : Rat
deriving DecidableEq, Repr

/-- Embeds `normalizePickupPayload` (trips.js lines 20-42). -/
def normalizePickupPayload (p : PickupInput) : Except String PickupPoint :=
  let name := jsTrim (p.name.getD "")
  if name = "" then .error "Ingresa un nombre para el punto"
  else
    match p.lat, p.lng with
    | some lat, some lng =>
      if lat < -90 ∨ lat > 90 ∨ lng < -180 ∨ lng > 180 then
        .error "Coordenadas fuera de rango"
      else
        let description := jsTrim (p.description.getD "")
        .ok { name := name,
              description := if description = "" then none else some description,
              lat := lat, lng := lng }
    | _, _ => .error "Latitud y longitud deben ser numéricas"

/-- Normalizes a whole list of pickup points, stopping at the first
error, as the loop in trips.js lines 340-347 does. -/
def normalizeAll : List PickupInput → Except String (List PickupPoint)
  | [] => .ok []
  | p :: ps =>
    match normalizePickupPayload p with
    | .error e => .error e
    | .ok v =>
      match normalizeAll ps with
      | .error e => .error e
      | .ok vs => .ok (v :: vs)

structure Reservation where
  id : Nat
  passenger : Nat
  seats : Nat
  pickupPoints : List PickupPoint
  paymentMethod : String
  status : ResStatus
deriving DecidableEq, Repr

structure Trip where
  driver : Nat
  vehicle : Nat
  departureAt : Int
  seatsTotal : Nat
  seatsAvailable : Nat
  status : TripStatus
  reservations : List Reservation
deriving DecidableEq, Repr

/-- A reservation counts against the seat budget while pending or
confirmed. -/
def Reservation.isActive (r : Reservation) : Bool :=
  r.status == .pending || r.status == .confirmed

/-- Trip created by `POST /trips` (trips.js lines 166-229): seatsAvailable
starts at seatsTotal and there are no reservations.  Modelled from the
spec: the Trip mongoose model is not under src/, so the schema default
`status = scheduled` is taken from the spec (trips are published as
`scheduled`; §3 Trip lifecycle). -/
def mkTrip (driver vehicle : Nat) (departureAt : Int) (seatsTotal : Nat) : Trip :=
  { driver := driver, vehicle := vehicle, departureAt := departureAt,
    seatsTotal := seatsTotal, seatsAvailable := seatsTotal,
    status := .scheduled, reservations := [] }

/-- Handler result: an error response `(status, message)` or a success
response `(status, trip)`. -/
inductive TripRes where
  | err : Nat → String → TripRes
  | ok : Nat → Trip → TripRes
deriving DecidableEq, Repr

/-- Request body of `POST /trips/:id/reservations`.  `seats` is an `Int`
because the JS coerces with `Number(...)` and explicitly checks
integrality and positivity. -/
structure ReservationRequest where
  seats : Int
  pickupPoints : List PickupInput
  paymentMethod : Option String
deriving DecidableEq, Repr

/-- The filter of the conditional `Trip.findOneAndUpdate` (trips.js lines
360-371): seats still available, bookable status, caller is not the
driver, and no active reservation by the caller. -/
def reserveGuard (t : Trip) (caller seatsRequested : Nat) : Bool :=
  seatsRequested ≤ t.seatsAvailable
    && (t.status == .scheduled || t.status == .full)
    && t.driver != caller
    && !(t.reservations.any fun r => r.passenger == caller && r.isActive)

/-- The document state after the conditional update succeeded: the
reservation is pushed, seats are decremented, and — as the follow-up save
in trips.js lines 400-403 does — the status is set to `full` when the
updated document has no seats left and is not already `full`. -/
def reserveSuccess (t : Trip) (caller newId seatsRequested : Nat)
    (pts : List PickupPoint) (pm : String) : Trip :=
  let rdoc : Reservation :=
    { id := newId, passenger := caller, seats := seatsRequested,
      pickupPoints := pts, paymentMethod := pm, status := .pending }
  let t1 : Trip := { t with
    seatsAvailable := t.seatsAvailable - seatsRequested,
    reservations := t.reservations ++ [rdoc] }
  if t1.seatsAvailable = 0 ∧ t1.status ≠ .full then
    { t1 with status := .full }
  else
    t1

/-- The conditional update of `POST /trips/:id/reservations` and its
failure-cause mapping (trips.js lines 352-405). -/
def postReservationCore (trip? : Option Trip) (caller newId seatsRequested : Nat)
    (pts : List PickupPoint) (pm : String) : TripRes :=
  match trip? with
  | none => .err 404 "Viaje no encontrado"
  | some t =>
    if reserveGuard t caller seatsRequested then
      .ok 201 (reserveSuccess t caller newId seatsRequested pts pm)
    else
      -- re-read and map the failure cause (trips.js lines 379-398)
      if t.driver = caller then
        .err 400 "No puedes reservar tu propio viaje"
      else if t.status = .cancelled ∨ t.status = .completed then
        .err 400 "El viaje no está disponible"
      else if t.seatsAvailable < seatsRequested then
        .err 400 "Sin cupos suficientes"
      else if t.reservations.any (fun r => r.passenger == caller && r.status == .confirmed) then
        .err 400 "Ya tienes una reserva activa en este viaje"
      else
        .err 400 "No se pudo crear la reserva"

/-- Embeds `POST /trips/:id/reservations` (trips.js lines 330-406).
`trip?` is the database lookup result for `:id`; `newId` is the id the
store assigns to the pushed reservation. -/
def postReservation (trip? : Option Trip) (caller newId : Nat)
    (req : ReservationRequest) : TripRes :=
  if ¬(1 ≤ req.seats) then .err 400 "Cantidad de puestos inválida"
  else
    let seatsRequested := req.seats.toNat
    if req.pickupPoints.length ≠ seatsRequested then
      .err 400 "Debes indicar un punto de recogida por puesto"
    else
      match normalizeAll req.pickupPoints with
      | .error e => .err 400 e
      | .ok pts =>
        -- `if (paymentMethod && ...)`: an absent or empty (falsy) payment
        -- method skips validation and defaults to "cash".
        match req.paymentMethod with
        | some pm =>
          if pm ≠ "" ∧ pm ≠ "cash" ∧ pm ≠ "nequi" then
            .err 400 "Método de pago inválido"
          else
            postReservationCore trip? caller newId seatsRequested pts
              (if pm = "" then "cash" else pm)
        | none => postReservationCore trip? caller newId seatsRequested pts "cash"

/-- Embeds `adjustTripCapacity` (trips.js lines 452-459); the two `if`s
run in sequence on the mutated object. -/
def adjustTripCapacity (t : Trip) : Trip :=
  let t1 := if t.seatsAvailable = 0 ∧ t.status = .scheduled then
    { t with status := .full } else t
  if t1.seatsAvailable > 0 ∧ t1.status = .full then
    { t1 with status := .scheduled } else t1

/-- Replaces the first element satisfying `p` by its image under `f`
(model of mutating the subdocument found by `.id(...)` and saving). -/
def updateFirst (p : α → Bool) (f : α → α) : List α → List α
  | [] => []
  | x :: xs => if p x then f x :: xs else x :: updateFirst p f xs

/-- The document state after a pending reservation was confirmed and the
status normalized (trips.js lines 478-482). -/
def confirmApplied (t : Trip) (resId : Nat) : Trip :=
  let rs1 := updateFirst (fun r => r.id == resId)
    (fun r => { r with status := .confirmed }) t.reservations
  adjustTripCapacity { t with reservations := rs1 }

/-- Embeds `PUT /trips/:tripId/reservations/:reservationId/confirm`
(trips.js lines 461-484).  `t` is the document for `:tripId`; the
`findOne({_id, driver})` filter is the driver check. -/
def confirmReservation (t : Trip) (caller resId : Nat) : TripRes :=
  if t.driver ≠ caller then .err 404 "Viaje no encontrado"
  else
    match t.reservations.find? (fun r => r.id == resId) with
    | none => .err 404 "Reserva no encontrada"
    | some r =>
      if r.status = .rejected ∨ r.status = .cancelled then
        .err 400 "La reserva ya fue cancelada"
      else if r.status = .confirmed then .ok 200 t
      else if r.status ≠ .pending then .err 400 "Reserva en estado inválido"
      else
        .ok 200 (confirmApplied t resId)

/-- The document state after a pending reservation was rejected: seats
are returned (clamped at seatsTotal) and the status normalized
(trips.js lines 500-503). -/
def rejectApplied (t : Trip) (resId : Nat) (r : Reservation) : Trip :=
  let rs1 := updateFirst (fun x => x.id == resId)
    (fun x => { x with status := .rejected }) t.reservations
  let t1 := { t with reservations := rs1,
                     seatsAvailable := min (t.seatsAvailable + r.seats) t.seatsTotal }
  adjustTripCapacity t1

/-- Embeds `PUT /trips/:tripId/reservations/:reservationId/reject`
(trips.js lines 486-506). -/
def rejectReservation (t : Trip) (caller resId : Nat) : TripRes :=
  if t.driver ≠ caller then .err 404 "Viaje no encontrado"
  else
    match t.reservations.find? (fun r => r.id == resId) with
    | none => .err 404 "Reserva no encontrada"
    | some r =>
      if r.status = .rejected ∨ r.status = .cancelled then .ok 200 t
      else if r.status ≠ .pending then
        .err 400 "Solo reservas pendientes pueden rechazarse"
      else
        .ok 200 (rejectApplied t resId r)

/-- The document state after an active reservation was cancelled: seats
are returned (clamped at seatsTotal) and the status normalized
(trips.js lines 523-526). -/
def cancelResApplied (t : Trip) (resId : Nat) (r : Reservation) : Trip :=
  let rs1 := updateFirst (fun x => x.id == resId)
    (fun x => { x with status := .cancelled }) t.reservations
  let t1 := { t with reservations := rs1,
                     seatsAvailable := min (t.seatsAvailable + r.seats) t.seatsTotal }
  adjustTripCapacity t1

/-- Embeds `PUT /trips/:tripId/reservations/:reservationId/cancel`
(trips.js lines 508-529); the route matches any trip containing the
reservation, then checks that the caller is the driver or the
reservation's passenger. -/
def cancelReservation (t : Trip) (caller resId : Nat) : TripRes :=
  match t.reservations.find? (fun r => r.id == resId) with
  | none => .err 404 "Reserva no encontrada"
  | some r =>
    if t.driver ≠ caller ∧ r.passenger ≠ caller then .err 403 "No autorizado"
    else if r.status = .cancelled ∨ r.status = .rejected then .ok 200 t
    else
      .ok 200 (cancelResApplied t resId r)

/-- The document state after a trip cancel: the trip is cancelled,
seatsAvailable forced to 0, and every reservation set to `cancelled`
(trips.js lines 536-541). -/
def cancelTripApplied (t : Trip) : Trip :=
  { t with
    status := .cancelled,
    seatsAvailable := 0,
    reservations := t.reservations.map (fun r => { r with status := .cancelled }) }

/-- Embeds `PUT /trips/:id/cancel` (trips.js lines 532-577); the
`findOne({_id, driver})` filter is the driver check.  The email fan-out
does not change trip state. -/
def cancelTrip (t : Trip) (caller : Nat) : TripRes :=
  if t.driver ≠ caller then .err 404 "Viaje no encontrado"
  else
    .ok 200 (cancelTripApplied t)

/-- One trip-mutating operation of the engine. -/
inductive TripOp where
  | reserve (caller newId : Nat) (req : ReservationRequest)
  | confirm (caller resId : Nat)
  | reject (caller resId : Nat)
  | cancelRes (caller resId : Nat)
  | cancelTrip (caller : Nat)
deriving Repr

/-- The trip state after running an operation: a failing handler leaves
the stored document untouched. -/
def applyOp (t : Trip) : TripOp → Trip
  | .reserve caller newId req =>
    match postReservation (some t) caller newId req with
    | .ok _ t1 => t1
    | .err _ _ => t
  | .confirm caller resId =>
    match confirmReservation t caller resId with
    | .ok _ t1 => t1
    | .err _ _ => t
  | .reject caller resId =>
    match rejectReservation t caller resId with
    | .ok _ t1 => t1
    | .err _ _ => t
  | .cancelRes caller resId =>
    match cancelReservation t caller resId with
    | .ok _ t1 => t1
    | .err _ _ => t
  | .cancelTrip caller =>
    match cancelTrip t caller with
    | .ok _ t1 => t1
    | .err _ _ => t

/-! ### Invariants (spec §8) -/

/-- Seats held by pending/confirmed reservations. -/
def activeSeats : List Reservation → Nat
  | [] => 0
  | r :: rs => (if r.isActive then r.seats else 0) + activeSeats rs

/-- Seat conservation: `seatsAvailable = seatsTotal − Σ(active seats)`,
stated over ℤ so that the subtraction is the spec's, not truncated. -/
def seatInv (t : Trip) : Prop :=
  (t.seatsAvailable : ℤ) = (t.seatsTotal : ℤ) - (activeSeats t.reservations : ℤ)

instance : DecidablePred seatInv := fun t => by
  unfold seatInv; infer_instance

/-- Status bijection: `status = full ⇔ seatsAvailable = 0 ∧ status ∉
{cancelled, completed}`. -/
def statusInv (t : Trip) : Prop :=
  t.status = .full ↔
    (t.seatsAvailable = 0 ∧ t.status ≠ .cancelled ∧ t.status ≠ .completed)

instance : DecidablePred statusInv := fun t => by
  unfold statusInv; infer_instance

/-! ### Identity store (src/unnamed/part_011 auth routes) -/

structure UserRec where
  id : Nat
  email : String
  passwordHash : String
  firstName : String
  lastName : String
  universityId : String
  phone : String
  preferredPaymentMethod : Option String
  roles : List String
  activeRole : String
  activeVehicle : Option Nat
deriving DecidableEq, Repr

/-- Password-reset record.  The PasswordReset mongoose model is not under
src/; its fields follow the routes that use it (part_011) and, for the
`used` default, the spec (§3: created with used = false). -/
structure ResetRec where
  userId : Nat
  token : String
  expiresAt : Int
  used : Bool
deriving DecidableEq, Repr

structure VehicleRec where
  id : Nat
  owner : Nat
  plate : String
  capacity : Int
  createdAt : Int
  soatExpiration : Int
  licenseExpiration : Int
deriving DecidableEq, Repr

/-- The persistent store the embedded handlers read and write. -/
structure Store where
  users : List UserRec
  vehicles : List VehicleRec
  trips : List Trip
  resets : List ResetRec
deriving Repr

/-- Vehicle payload of a driver registration.  Dates arrive as strings in
JS and are parsed with `new Date`; the model carries already-parsed
millisecond timestamps, so the unparsable-date branch is outside the
model (no claim depends on it).  `none` is an absent field. -/
structure RegVehicleBody where
  plate : Option String
  brand : Option String
  model : Option String
  capacity : Option Int
  soatPhotoUrl : Option String
  vehiclePhotoUrl : Option String
  soatExpiration : Option Int
  licenseNumber : Option String
  licenseExpiration : Option Int
deriving DecidableEq, Repr

structure RegisterBody where
  email : Option String
  password : Option String
  firstName : Option String
  lastName : Option String
  universityId : Option String
  phone : Option String
  preferredPaymentMethod : Option String
  role : Option String
  vehicle : Option RegVehicleBody
deriving DecidableEq, Repr

/-- Embeds `validateInstitutionalEmail` (part_011 lines 58-69). -/
def validateInstitutionalEmail (email : Option String) : Except String String :=
  let normEmail := jsToLower (jsTrim (email.getD ""))
  if ¬ jsIncludes normEmail '@' then .error "Email inválido"
  else
    let domain := (jsSplit normEmail '@').getD 1 ""
    if domain = "unisabana.edu.co" ∨ jsEndsWith domain ".unisabana.edu.co" then
      .ok normEmail
    else .error "Email no institucional (@unisabana.edu.co)"

/-- JS truthiness of an optional string field (absent or empty is falsy). -/
def strPresent (s : Option String) : Bool := !(s.getD "" == "")

/-- Presence of one required vehicle field (`!vehicle?.[field]`,
part_011 line 126).  A numeric capacity of 0 is falsy in JS. -/
def vehicleFieldPresent (v? : Option RegVehicleBody) (field : String) : Bool :=
  match v? with
  | none => false
  | some v =>
    if field = "plate" then strPresent v.plate
    else if field = "brand" then strPresent v.brand
    else if field = "model" then strPresent v.model
    else if field = "capacity" then v.capacity.getD 0 != 0
    else if field = "soatPhotoUrl" then strPresent v.soatPhotoUrl
    else if field = "vehiclePhotoUrl" then strPresent v.vehiclePhotoUrl
    else if field = "soatExpiration" then v.soatExpiration.isSome
    else if field = "licenseNumber" then strPresent v.licenseNumber
    else if field = "licenseExpiration" then v.licenseExpiration.isSome
    else false

def requiredVehicleFields : List String :=
  ["plate", "brand", "model", "capacity", "soatPhotoUrl", "vehiclePhotoUrl",
   "soatExpiration", "licenseNumber", "licenseExpiration"]

def missingVehicleFields (v? : Option RegVehicleBody) : List String :=
  requiredVehicleFields.filter (fun f => !(vehicleFieldPresent v? f))

/-- `Number(vehicle.capacity)` must be an integer in [1, 8] (part_011
lines 130-133). -/
def capacityOk (v? : Option RegVehicleBody) : Bool :=
  match v? with
  | none => false
  | some v =>
    match v.capacity with
    | none => false
    | some c => 1 ≤ c && c ≤ 8

/-- Modelled from the spec: `sendWelcomeEmail` is imported by the auth
routes from ../services/emailService.js, but that file under src/ only
defines `sendEmail`.  The spec states "A welcome email is dispatched
through the sender and must not fail the registration if it errors", so
the helper absorbs any sender error instead of propagating it. -/
def sendWelcomeEmail (_senderOutcome : Except String Unit) : Except String Unit :=
  .ok ()

/-- Embeds `POST /auth/register` (part_011 lines 73-221).  `hash` models
`bcrypt.hash(·, 10)`; `newUserId`/`newVehicleId` are the ids the store
assigns; `senderOutcome` is the injected email sender's result.  An
exception inside the `try` deletes the created user (but not a created
vehicle) and returns 500/409/400 per the catch block. -/
def register (st : Store) (body : RegisterBody) (hash : String → String)
    (now : Int) (newUserId newVehicleId : Nat)
    (senderOutcome : Except String Unit) : (Nat × String) × Store :=
  match validateInstitutionalEmail body.email with
  | .error e => ((400, e), st)
  | .ok normEmail =>
    if (body.firstName.getD "") = "" ∨ (body.lastName.getD "") = "" ∨
       (body.universityId.getD "") = "" ∨ (body.phone.getD "") = "" then
      ((400, "Datos personales incompletos"), st)
    else
      let password := body.password.getD ""
      if password = "" ∨ password.length < 8 then
        ((400, "Contraseña muy corta (min 8)"), st)
      else
        let role := body.role.getD "passenger"
        if role ≠ "passenger" ∧ role ≠ "driver" then ((400, "Rol inválido"), st)
        else
          let pm := body.preferredPaymentMethod.getD ""
          if pm ≠ "" ∧ pm ≠ "cash" ∧ pm ≠ "nequi" then
            ((400, "Método de pago preferido inválido"), st)
          else if role = "driver" ∧ missingVehicleFields body.vehicle ≠ [] then
            ((400, "Faltan datos de vehículo: "
                ++ String.intercalate ", " (missingVehicleFields body.vehicle)), st)
          else if role = "driver" ∧ ¬ (capacityOk body.vehicle = true) then
            ((400, "Capacidad de vehículo inválida"), st)
          else if st.users.any (fun u => u.email == normEmail) then
            -- User.create throws E11000 on the email unique index; the
            -- catch block maps it to 409 before any user was kept.
            ((409, "Email ya registrado"), st)
          else
            let roles := if role = "driver" then ["passenger", "driver"] else ["passenger"]
            let activeRole := if role = "driver" then "driver" else "passenger"
            let newUser : UserRec :=
              { id := newUserId, email := normEmail, passwordHash := hash password,
                firstName := body.firstName.getD "", lastName := body.lastName.getD "",
                universityId := body.universityId.getD "", phone := body.phone.getD "",
                preferredPaymentMethod := if pm = "" then none else some pm,
                roles := roles, activeRole := activeRole, activeVehicle := none }
            let stU := { st with users := st.users ++ [newUser] }
            if role = "driver" then
              match body.vehicle with
              | none => ((500, "Error registrando usuario"), st)
              | some vb =>
                let soatDate := vb.soatExpiration.getD 0
                let licenseDate := vb.licenseExpiration.getD 0
                if soatDate < now ∨ licenseDate < now then
                  -- User.deleteOne then 400 (part_011 lines 162-165)
                  ((400, "Documentos del vehículo vencidos"), st)
                else if stU.vehicles.any (fun v => v.plate == vb.plate.getD "") then
                  -- Vehicle.create duplicate plate: catch deletes the user
                  ((409, "Placa ya registrada"), st)
                else if stU.vehicles.any (fun v => v.owner == newUserId) then
                  ((400, "El conductor ya tiene un vehículo registrado"), st)
                else
                  let newVehicle : VehicleRec :=
                    { id := newVehicleId, owner := newUserId,
                      plate := vb.plate.getD "", capacity := vb.capacity.getD 0,
                      createdAt := now, soatExpiration := soatDate,
                      licenseExpiration := licenseDate }
                  let usersV := updateFirst (fun u => u.id == newUserId)
                    (fun u => { u with activeVehicle := some newVehicleId }) stU.users
                  let stV := { stU with vehicles := stU.vehicles ++ [newVehicle],
                                        users := usersV }
                  match sendWelcomeEmail senderOutcome with
                  | .error _ =>
                    ((500, "Error registrando usuario"),
                     { stV with users := stV.users.filter (fun u => u.id != newUserId) })
                  | .ok _ => ((201, "ok"), stV)
            else
              match sendWelcomeEmail senderOutcome with
              | .error _ =>
                ((500, "Error registrando usuario"),
                 { stU with users := stU.users.filter (fun u => u.id != newUserId) })
              | .ok _ => ((201, "ok"), stU)

/-- Embeds `POST /auth/forgot-password` (part_011 lines 379-403).
`randHex` models `crypto.randomBytes(32).toString("hex")`, the raw
secret; the handler persists it as the record's `token` with an expiry
of one hour and never touches earlier records. -/
def forgotPassword (st : Store) (email : String) (randHex : String)
    (now : Int) : (Nat × Bool) × Store :=
  let normEmail := jsToLower (jsTrim email)
  match st.users.find? (fun u => u.email == normEmail) with
  | none => ((200, true), st)
  | some user =>
    let entry : ResetRec :=
      { userId := user.id, token := randHex,
        expiresAt := now + 1000 * 60 * 60, used := false }
    ((200, true), { st with resets := st.resets ++ [entry] })

/-- State after a successful reset: the user's bcrypt hash is replaced
and the consumed token marked used (part_011 lines 418-422). -/
def resetSuccessState (st : Store) (token password : String) (userId : Nat)
    (hash : String → String) : Store :=
  let users1 := updateFirst (fun u => u.id == userId)
    (fun u => { u with passwordHash := hash password }) st.users
  let resets1 := updateFirst (fun r => r.token == token)
    (fun r => { r with used := true }) st.resets
  { st with users := users1, resets := resets1 }

/-- Embeds `POST /auth/reset-password` (part_011 lines 406-429). -/
def resetPassword (st : Store) (token password : String) (now : Int)
    (hash : String → String) : (Nat × String) × Store :=
  if token = "" ∨ password = "" ∨ password.length < 6 then
    ((400, "Token o contraseña inválidos"), st)
  else
    match st.resets.find? (fun r => r.token == token) with
    | none => ((400, "Token inválido o expirado"), st)
    | some pr =>
      if pr.used ∨ pr.expiresAt < now then
        ((400, "Token inválido o expirado"), st)
      else
        match st.users.find? (fun u => u.id == pr.userId) with
        | none => ((400, "Usuario no encontrado"), st)
        | some _ =>
          ((200, "ok"), resetSuccessState st token password pr.userId hash)

/-! ### Vehicle deletion (src/backend/src/routes/vehicles.js lines 577-621) -/

/-- Removes the first element satisfying `p` (model of
`findOneAndDelete`). -/
def eraseFirst (p : α → Bool) : List α → List α
  | [] => []
  | x :: xs => if p x then xs else x :: eraseFirst p xs

/-- Stable insertion by ascending `createdAt` (equal keys keep their
relative order, as a database sort does). -/
def insertByCreatedAt (v : VehicleRec) : List VehicleRec → List VehicleRec
  | [] => [v]
  | w :: ws =>
    if v.createdAt < w.createdAt then v :: w :: ws
    else w :: insertByCreatedAt v ws

/-- `Vehicle.find({owner}).sort({createdAt: 1})`. -/
def sortByCreatedAt : List VehicleRec → List VehicleRec
  | [] => []
  | v :: vs => insertByCreatedAt v (sortByCreatedAt vs)

/-- Embeds `DELETE /vehicles/:id` (vehicles.js lines 577-621). -/
def deleteVehicle (st : Store) (caller vid : Nat) (now : Int) :
    (Nat × String) × Store :=
  let blocking := st.trips.find? (fun t =>
    t.vehicle == vid && t.driver == caller &&
    (t.status == TripStatus.scheduled || t.status == TripStatus.full) &&
    now ≤ t.departureAt)
  if blocking.isSome then
    ((400, "No puedes eliminar este vehículo mientras tenga viajes activos programados"), st)
  else
    match st.vehicles.find? (fun v => v.id == vid && v.owner == caller) with
    | none => ((404, "Vehículo no encontrado"), st)
    | some _ =>
      let vehicles1 := eraseFirst (fun v => v.id == vid && v.owner == caller) st.vehicles
      let st1 := { st with vehicles := vehicles1 }
      match st.users.find? (fun u => u.id == caller) with
      | none => ((200, "ok"), st1)
      | some u =>
        let remaining := sortByCreatedAt (vehicles1.filter (fun v => v.owner == caller))
        match remaining with
        | [] =>
          let u1 := { u with
            roles := u.roles.filter (fun role => role != "driver"),
            activeRole := if u.activeRole = "driver" then "passenger" else u.activeRole,
            activeVehicle := none }
          ((200, "ok"),
           { st1 with users := updateFirst (fun w => w.id == caller) (fun _ => u1) st.users })
        | first :: _ =>
          let nextActive := (remaining.find? (fun v =>
            now ≤ v.soatExpiration && now ≤ v.licenseExpiration)).getD first
          let u1 := if u.activeVehicle = none ∨ u.activeVehicle = some vid then
              { u with activeVehicle := some nextActive.id } else u
          let u2 := if u1.roles.contains "driver" then u1
            else { u1 with roles := u1.roles ++ ["driver"] }
          ((200, "ok"),
           { st1 with users := updateFirst (fun w => w.id == caller) (fun _ => u2) st.users })

/-- The claim's recomputed active vehicle, written from the spec's words:
"activeVehicle becomes the first vehicle with non-expired documents (or
the oldest otherwise)" among the owner's remaining vehicles. -/
def specRecomputedActive (remaining : List VehicleRec) (now : Int) : Option Nat :=
  match sortByCreatedAt remaining with
  | [] => none
  | first :: _ =>
    some ((((sortByCreatedAt remaining).find? (fun v =>
      now ≤ v.soatExpiration && now ≤ v.licenseExpiration)).getD first).id)

/-! ### Auth middleware and route table (src/unnamed/part_007,
route registrations of the routers under src/) -/

/-- Embeds `requireAuth` (part_007).  `verify` models `jwt.verify`
(`none` = throws), `revoked` models `isTokenRevoked`. -/
def requireAuthCheck (authorizationHeader : Option String)
    (verify : String → Option Nat) (revoked : String → Bool) :
    Except (Nat × String) Nat :=
  let hdr := authorizationHeader.getD ""
  let token? := if jsStartsWith hdr "Bearer " then some (jsDrop hdr 7) else none
  match token? with
  | none => .error (401, "No token")
  | some token =>
    if token = "" then .error (401, "No token")
    else
      match verify token with
      | none => .error (401, "Invalid token")
      | some claims =>
        if revoked token then .error (401, "Invalid token")
        else .ok claims

structure Endpoint where
  method : String
  path : String
  requiresAuth : Bool
deriving DecidableEq, Repr

/-- Every endpoint registered under src/ with whether its handler chain
includes `requireAuth`.  The express app is the second document of
src/unnamed/part_010: it mounts the routers at `/auth`, `/vehicles`,
`/trips`, `/ratings`, `/maps`, `/navigation` and `/users` (no
`requireAuth` in front of any mount), serves `/uploads` (static files)
and `/api-docs` (swagger UI) without auth, and registers `GET /` (a
redirect to the docs) and `GET /health` directly, both without auth.
The `/uploads` and `/api-docs` mounts are entered as public wildcard
rows.  The route files of the `/ratings` and `/navigation` routers are
not under src/ (only the app mounts them); modelled from the spec:
§4.5 places every endpoint outside its exempt list behind bearer auth
and names no ratings or navigation endpoint in the exempt list, so
those two routers are entered as auth-guarded wildcard rows. -/
def routingTable : List Endpoint := [
  -- part_010 (app-level registrations and non-router mounts)
  ⟨"GET", "/", false⟩,
  ⟨"GET", "/health", false⟩,
  ⟨"GET", "/uploads/*", false⟩,
  ⟨"GET", "/api-docs", false⟩,
  -- routes/ratings.js and routes/navigation.js (mounted by part_010,
  -- files not under src/; modelled from the spec as auth-guarded)
  ⟨"ANY", "/ratings/*", true⟩,
  ⟨"ANY", "/navigation/*", true⟩,
  -- part_011 (auth routes)
  ⟨"POST", "/auth/register", false⟩,
  ⟨"POST", "/auth/login", false⟩,
  ⟨"GET", "/auth/me", true⟩,
  ⟨"PUT", "/auth/me", true⟩,
  ⟨"PUT", "/auth/role", true⟩,
  ⟨"POST", "/auth/logout", true⟩,
  ⟨"POST", "/auth/forgot-password", false⟩,
  ⟨"POST", "/auth/reset-password", false⟩,
  -- part_012 (user profile routes)
  ⟨"GET", "/users/me", true⟩,
  ⟨"GET", "/users/me/driver-readiness", true⟩,
  ⟨"PUT", "/users/me", true⟩,
  -- src/backend/src/routes/vehicles.js
  ⟨"POST", "/vehicles", true⟩,
  ⟨"GET", "/vehicles", true⟩,
  ⟨"POST", "/vehicles/validate", true⟩,
  ⟨"PUT", "/vehicles/:id", true⟩,
  ⟨"DELETE", "/vehicles/:id", true⟩,
  ⟨"PUT", "/vehicles/:id/activate", true⟩,
  ⟨"GET", "/vehicles/:id/pickup-points", true⟩,
  ⟨"POST", "/vehicles/:id/pickup-points", true⟩,
  ⟨"PUT", "/vehicles/:id/pickup-points/:pointId", true⟩,
  ⟨"DELETE", "/vehicles/:id/pickup-points/:pointId", true⟩,
  ⟨"POST", "/vehicles/:id/request-review", true⟩,
  -- src/backend/src/routes/trips.js
  ⟨"POST", "/trips", true⟩,
  ⟨"GET", "/trips", false⟩,
  ⟨"POST", "/trips/tariff/suggest", false⟩,
  ⟨"POST", "/trips/:id/reservations", true⟩,
  ⟨"POST", "/trips/:id/pickup-suggestions", true⟩,
  ⟨"PUT", "/trips/:tripId/reservations/:reservationId/confirm", true⟩,
  ⟨"PUT", "/trips/:tripId/reservations/:reservationId/reject", true⟩,
  ⟨"PUT", "/trips/:tripId/reservations/:reservationId/cancel", true⟩,
  ⟨"PUT", "/trips/:id/cancel", true⟩,
  ⟨"GET", "/trips/:id/passengers", true⟩,
  -- part_013 (maps routes)
  ⟨"GET", "/maps/distance", false⟩,
  ⟨"POST", "/maps/calculate", false⟩,
  ⟨"GET", "/maps/transmilenio/routes", false⟩,
  ⟨"GET", "/maps/transmilenio/stations", false⟩,
  ⟨"GET", "/maps/transmilenio/stops", false⟩,
  ⟨"GET", "/maps/route-suggest", false⟩
]

/-- The spec's exempt list, written from its words: "Every endpoint
except registration, login, forgot-password, reset-password, health,
route-suggest (GET), and stops lookup requires bearer auth." -/
def specPublicPath (method path : String) : Bool :=
  (method == "POST" && path == "/auth/register") ||
  (method == "POST" && path == "/auth/login") ||
  (method == "POST" && path == "/auth/forgot-password") ||
  (method == "POST" && path == "/auth/reset-password") ||
  (method == "GET" && path == "/health") ||
  (method == "GET" && path == "/maps/route-suggest") ||
  (method == "GET" && path == "/maps/transmilenio/stops")

/-- The exempt list the code actually implements: the spec's list plus
trip listing, tariff suggestion, the remaining maps endpoints, and the
app-level docs/static routes of part_010. -/
def codePublicPath (method path : String) : Bool :=
  specPublicPath method path ||
  (method == "GET" && path == "/trips") ||
  (method == "POST" && path == "/trips/tariff/suggest") ||
  (method == "GET" && path == "/maps/distance") ||
  (method == "POST" && path == "/maps/calculate") ||
  (method == "GET" && path == "/maps/transmilenio/routes") ||
  (method == "GET" && path == "/maps/transmilenio/stations") ||
  (method == "GET" && path == "/") ||
  (method == "GET" && path == "/uploads/*") ||
  (method == "GET" && path == "/api-docs")

/-! ### Spec-level predicates and concrete fixtures -/

/-- The booking precondition as the spec words it: the trip is
`scheduled` or `full`, has enough seats, is not the caller's own, and the
caller holds no pending/confirmed reservation on it. -/
def bookableBySpec (t : Trip) (caller seats : Nat) : Prop :=
  (t.status = .scheduled ∨ t.status = .full) ∧
  seats ≤ t.seatsAvailable ∧
  t.driver ≠ caller ∧
  ¬ ∃ r ∈ t.reservations, r.passenger = caller ∧
      (r.status = .pending ∨ r.status = .confirmed)

instance (t : Trip) (caller seats : Nat) : Decidable (bookableBySpec t caller seats) := by
  unfold bookableBySpec; infer_instance

/-- Concrete fixtures used by witnesses and counterexamples. -/
def fixPt : PickupInput :=
  { name := some "Universidad", description := none, lat := some 1, lng := some 1 }

def fixPpt : PickupPoint :=
  { name := "Universidad", description := none, lat := 1, lng := 1 }

def fixReq1 : ReservationRequest :=
  { seats := 1, pickupPoints := [fixPt], paymentMethod := none }

/-- A fresh three-seat trip by driver 1. -/
def fixTrip : Trip :=
  { driver := 1, vehicle := 10, departureAt := 5, seatsTotal := 3,
    seatsAvailable := 3, status := .scheduled, reservations := [] }

def fixRes (s : ResStatus) : Reservation :=
  { id := 0, passenger := 2, seats := 2, pickupPoints := [fixPpt],
    paymentMethod := "cash", status := s }

/-- `fixTrip` after passenger 2 booked two seats (reservation pending). -/
def fixTripPending : Trip :=
  { fixTrip with seatsAvailable := 1, reservations := [fixRes .pending] }

/-- Same trip with the reservation confirmed by the driver. -/
def fixTripConfirmed : Trip :=
  { fixTrip with seatsAvailable := 1, reservations := [fixRes .confirmed] }

def fixUser : UserRec :=
  { id := 1, email := "reset@unisabana.edu.co", passwordHash := "old-hash",
    firstName := "Reset", lastName := "User", universityId := "A00066666",
    phone := "3005550202", preferredPaymentMethod := none,
    roles := ["passenger"], activeRole := "passenger", activeVehicle := none }

/-- An earlier, still-unused reset token of `fixUser`. -/
def fixResetOld : ResetRec :=
  { userId := 1, token := "aaaa", expiresAt := 50, used := false }

def fixAuthStore : Store :=
  { users := [fixUser], vehicles := [], trips := [], resets := [fixResetOld] }

/-- The record forgot-password appends for `fixUser` at time 100 with
random hex "cafebabe". -/
def fixResetNew : ResetRec :=
  { userId := 1, token := "cafebabe", expiresAt := 100 + 1000 * 60 * 60,
    used := false }

def fixRegBody (pw : String) : RegisterBody :=
  { email := some "laura@unisabana.edu.co", password := some pw,
    firstName := some "Laura", lastName := some "Gonzalez",
    universityId := some "A00012345", phone := some "3001234567",
    preferredPaymentMethod := none, role := none, vehicle := none }

def fixVehicleBody : RegVehicleBody :=
  { plate := some "ABC123", brand := some "Toyota", model := some "Corolla",
    capacity := some 4, soatPhotoUrl := some "soat.jpg",
    vehiclePhotoUrl := some "car.jpg", soatExpiration := some 1000,
    licenseNumber := some "LIC-1", licenseExpiration := some 2000 }

def fixDriverBody : RegisterBody :=
  { email := some "driver@unisabana.edu.co", password := some "SecurePass123",
    firstName := some "Diego", lastName := some "Rios",
    universityId := some "A00022222", phone := some "3015550000",
    preferredPaymentMethod := none, role := some "driver",
    vehicle := some fixVehicleBody }

def emptyStore : Store := { users := [], vehicles := [], trips := [], resets := [] }

def fixVeh (id : Nat) (createdAt soat lic : Int) : VehicleRec :=
  { id := id, owner := 1, plate := "XYZ111", capacity := 4,
    createdAt := createdAt, soatExpiration := soat, licenseExpiration := lic }

/-- Owner 1 with three vehicles; the active one (id 20) has an expired
SOAT, vehicle 10 is oldest with valid documents. -/
def fixDelUser : UserRec :=
  { id := 1, email := "owner@unisabana.edu.co", passwordHash := "h",
    firstName := "Own", lastName := "Er", universityId := "A00033333",
    phone := "302", preferredPaymentMethod := none,
    roles := ["passenger", "driver"], activeRole := "driver",
    activeVehicle := some 20 }

def fixDelStore : Store :=
  { users := [fixDelUser],
    vehicles := [fixVeh 10 1 100 100, fixVeh 20 2 (-5) 100, fixVeh 30 3 100 100],
    trips := [], resets := [] }

/-! ## Helper lemmas -/

theorem reserveGuard_eq_true_iff (t : Trip) (caller s : Nat) :
    reserveGuard t caller s = true ↔ bookableBySpec t caller s := by
  simp only [reserveGuard, bookableBySpec, Bool.and_eq_true, Bool.or_eq_true,
    Bool.not_eq_true', List.any_eq_false, Reservation.isActive,
    decide_eq_true_eq, beq_iff_eq, bne_iff_ne, not_exists, and_assoc]
  constructor
  · rintro ⟨h1, h2, h3, h4⟩
    exact ⟨h2, h1, h3, fun r hr => h4 r hr.1 hr.2⟩
  · rintro ⟨h2, h1, h3, h4⟩
    exact ⟨h1, h2, h3, fun r hr hrest => h4 r ⟨hr, hrest⟩⟩

theorem reserveSuccess_reservations (t : Trip) (caller newId s : Nat)
    (pts : List PickupPoint) (pm : String) :
    (reserveSuccess t caller newId s pts pm).reservations =
      t.reservations ++ [⟨newId, caller, s, pts, pm, .pending⟩] := by
  simp only [reserveSuccess]
  split <;> rfl

theorem reserveSuccess_seatsAvailable (t : Trip) (caller newId s : Nat)
    (pts : List PickupPoint) (pm : String) :
    (reserveSuccess t caller newId s pts pm).seatsAvailable =
      t.seatsAvailable - s := by
  simp only [reserveSuccess]
  split <;> rfl

theorem reserveSuccess_seatsTotal (t : Trip) (caller newId s : Nat)
    (pts : List PickupPoint) (pm : String) :
    (reserveSuccess t caller newId s pts pm).seatsTotal = t.seatsTotal := by
  simp only [reserveSuccess]
  split <;> rfl

theorem reserveSuccess_driver (t : Trip) (caller newId s : Nat)
    (pts : List PickupPoint) (pm : String) :
    (reserveSuccess t caller newId s pts pm).driver = t.driver := by
  simp only [reserveSuccess]
  split <;> rfl

theorem reserveSuccess_status (t : Trip) (caller newId s : Nat)
    (pts : List PickupPoint) (pm : String)
    (hst : t.status = .scheduled ∨ t.status = .full) :
    (reserveSuccess t caller newId s pts pm).status =
      (if t.seatsAvailable - s = 0 ∧ t.status = .scheduled then .full
       else t.status) := by
  simp only [reserveSuccess]
  rcases hst with h | h <;> rw [h] <;> split <;> simp_all

/-- With a valid body, the handler reduces to the conditional-update
core. -/
theorem postReservation_eq_core (trip? : Option Trip) (caller newId : Nat)
    (req : ReservationRequest) (pts : List PickupPoint)
    (hseats : 1 ≤ req.seats)
    (hlen : req.pickupPoints.length = req.seats.toNat)
    (hnorm : normalizeAll req.pickupPoints = .ok pts)
    (hpm : req.paymentMethod = none ∨ req.paymentMethod = some "cash" ∨
           req.paymentMethod = some "nequi") :
    postReservation trip? caller newId req =
      postReservationCore trip? caller newId req.seats.toNat pts
        (req.paymentMethod.getD "cash") := by
  unfold postReservation
  rcases hpm with h | h | h <;> simp [h, hseats, hlen, hnorm]

theorem postReservationCore_not_ok (t : Trip) (caller newId s : Nat)
    (pts : List PickupPoint) (pm : String)
    (hg : reserveGuard t caller s = false) :
    ∀ st t1, postReservationCore (some t) caller newId s pts pm ≠ .ok st t1 := by
  intro st t1
  simp only [postReservationCore, hg, Bool.false_eq_true, if_false]
  split_ifs <;> simp

/-! ## Claims -/

/-- C1: an authenticated `POST /trips/:id/reservations` with a valid body
appends the reservation and decrements seatsAvailable by `seats` in the
single conditional update exactly when the trip exists, its status is
scheduled or full, it has `seats` seats available, the caller is not the
driver, and the caller holds no pending/confirmed reservation; on
success, if the new seatsAvailable is 0 and the status was still
scheduled, the status becomes full. -/
theorem c1_reservation_conditional_update (t : Trip) (caller newId : Nat)
    (req : ReservationRequest) (pts : List PickupPoint)
    (hseats : 1 ≤ req.seats)
    (hlen : req.pickupPoints.length = req.seats.toNat)
    (hnorm : normalizeAll req.pickupPoints = .ok pts)
    (hpm : req.paymentMethod = none ∨ req.paymentMethod = some "cash" ∨
           req.paymentMethod = some "nequi") :
    ((∃ t1, postReservation (some t) caller newId req = .ok 201 t1) ↔
        bookableBySpec t caller req.seats.toNat)
    ∧ (∀ t1, postReservation (some t) caller newId req = .ok 201 t1 →
        t1.reservations = t.reservations ++
          [{ id := newId, passenger := caller, seats := req.seats.toNat,
             pickupPoints := pts, paymentMethod := req.paymentMethod.getD "cash",
             status := .pending }]
        ∧ (t1.seatsAvailable : ℤ) =
            (t.seatsAvailable : ℤ) - (req.seats.toNat : ℤ)
        ∧ t1.status = (if t.seatsAvailable - req.seats.toNat = 0 ∧
              t.status = .scheduled then .full else t.status)
        ∧ t1.seatsTotal = t.seatsTotal)
    ∧ (∀ st t1, postReservation none caller newId req ≠ .ok st t1) := by
  have hred := postReservation_eq_core (some t) caller newId req pts hseats hlen hnorm hpm
  have hrednone := postReservation_eq_core none caller newId req pts hseats hlen hnorm hpm
  refine ⟨?_, ?_, ?_⟩
  · rw [hred]
    cases hg : reserveGuard t caller req.seats.toNat with
    | true =>
      constructor
      · intro _
        exact (reserveGuard_eq_true_iff t caller req.seats.toNat).mp hg
      · intro _
        exact ⟨reserveSuccess t caller newId req.seats.toNat pts
          (req.paymentMethod.getD "cash"), by simp [postReservationCore, hg]⟩
    | false =>
      constructor
      · rintro ⟨t1, h⟩
        exact absurd h (postReservationCore_not_ok t caller newId req.seats.toNat
          pts (req.paymentMethod.getD "cash") hg 201 t1)
      · intro hb
        rw [← reserveGuard_eq_true_iff t caller req.seats.toNat] at hb
        rw [hg] at hb
        cases hb
  · intro t1 h
    rw [hred] at h
    cases hg : reserveGuard t caller req.seats.toNat with
    | false =>
      exact absurd h (postReservationCore_not_ok t caller newId req.seats.toNat
        pts (req.paymentMethod.getD "cash") hg 201 t1)
    | true =>
      have hok : postReservationCore (some t) caller newId req.seats.toNat pts
          (req.paymentMethod.getD "cash") =
          .ok 201 (reserveSuccess t caller newId req.seats.toNat pts
            (req.paymentMethod.getD "cash")) := by
        simp [postReservationCore, hg]
      rw [hok] at h
      obtain ⟨hs1, hs2, hs3, hs4⟩ := (reserveGuard_eq_true_iff t caller
        req.seats.toNat).mp hg
      cases h
      refine ⟨reserveSuccess_reservations .., ?_, ?_, reserveSuccess_seatsTotal ..⟩
      · rw [reserveSuccess_seatsAvailable]
        push_cast [Nat.cast_sub hs2]
        ring
      · exact reserveSuccess_status t caller newId req.seats.toNat pts
          (req.paymentMethod.getD "cash") hs1
  · intro st t1
    rw [hrednone]
    simp [postReservationCore]

/-- Witness for C1: for a fresh three-seat trip and a valid one-seat
request by passenger 2, the body checks hold and the reservation is
created. -/
theorem c1_reservation_conditional_update_witness :
    (1 ≤ fixReq1.seats ∧ fixReq1.pickupPoints.length = fixReq1.seats.toNat ∧
      normalizeAll fixReq1.pickupPoints = .ok [fixPpt] ∧
      fixReq1.paymentMethod = none) ∧
    ((∃ t1, postReservation (some fixTrip) 2 0 fixReq1 = .ok 201 t1) ↔
      bookableBySpec fixTrip 2 fixReq1.seats.toNat) := by
  refine ⟨by decide, ?_⟩
  exact (c1_reservation_conditional_update fixTrip 2 0 fixReq1 [fixPpt]
    (by decide) (by decide) (by decide) (Or.inl rfl)).1

/-- C4 counterexample: passenger 2 already holds a *pending* reservation
on a bookable trip with enough seats, yet the second POST returns the
generic RESERVATION_FAILED message, not DUPLICATE_RESERVATION (the
fallback mapping in trips.js lines 391-393 only checks `confirmed`). -/
theorem c4_duplicate_reservation_counterexample :
    (∃ r ∈ fixTripPending.reservations,
        r.passenger = 2 ∧ r.status = ResStatus.pending)
    ∧ fixTripPending.status = .scheduled
    ∧ fixTripPending.driver ≠ 2
    ∧ fixReq1.seats.toNat ≤ fixTripPending.seatsAvailable
    ∧ postReservation (some fixTripPending) 2 1 fixReq1 =
        .err 400 "No se pudo crear la reserva"
    ∧ "No se pudo crear la reserva" ≠ "Ya tienes una reserva activa en este viaje"
    ∧ applyOp fixTripPending (.reserve 2 1 fixReq1) = fixTripPending := by
  decide

/-- C4 (amended): a second reservation attempt by a passenger holding an
active reservation leaves the trip unchanged; the response is
DUPLICATE_RESERVATION when the existing reservation is *confirmed*, but
the generic "No se pudo crear la reserva" when it is only *pending*. -/
theorem c4_duplicate_reservation_amended (t : Trip) (caller newId : Nat)
    (req : ReservationRequest) (pts : List PickupPoint)
    (hseats : 1 ≤ req.seats)
    (hlen : req.pickupPoints.length = req.seats.toNat)
    (hnorm : normalizeAll req.pickupPoints = .ok pts)
    (hpm : req.paymentMethod = none ∨ req.paymentMethod = some "cash" ∨
           req.paymentMethod = some "nequi")
    (hdrv : t.driver ≠ caller)
    (hst : t.status = .scheduled ∨ t.status = .full)
    (havail : req.seats.toNat ≤ t.seatsAvailable) :
    ((∃ r ∈ t.reservations, r.passenger = caller ∧ r.status = .confirmed) →
      postReservation (some t) caller newId req =
        .err 400 "Ya tienes una reserva activa en este viaje")
    ∧ ((∃ r ∈ t.reservations, r.passenger = caller ∧ r.status = .pending) →
       (¬ ∃ r ∈ t.reservations, r.passenger = caller ∧ r.status = .confirmed) →
       postReservation (some t) caller newId req =
         .err 400 "No se pudo crear la reserva")
    ∧ (∀ st msg, postReservation (some t) caller newId req = .err st msg →
        applyOp t (.reserve caller newId req) = t) := by
  have hred := postReservation_eq_core (some t) caller newId req pts hseats hlen hnorm hpm
  refine ⟨?_, ?_, ?_⟩
  · rintro ⟨r, hr, hrp, hrs⟩
    have hg : reserveGuard t caller req.seats.toNat = false := by
      rw [← Bool.not_eq_true, reserveGuard_eq_true_iff]
      intro hb
      exact hb.2.2.2 ⟨r, hr, hrp, Or.inr hrs⟩
    have hany : (t.reservations.any fun x =>
        x.passenger == caller && x.status == ResStatus.confirmed) = true := by
      rw [List.any_eq_true]
      exact ⟨r, hr, by simp [hrp, hrs]⟩
    rw [hred]
    simp only [postReservationCore, hg, Bool.false_eq_true, if_false]
    rw [if_neg (fun h => hdrv h), if_neg (by rcases hst with h | h <;> simp [h]),
        if_neg (not_lt.mpr havail), if_pos hany]
  · rintro ⟨r, hr, hrp, hrs⟩ hnconf
    have hg : reserveGuard t caller req.seats.toNat = false := by
      rw [← Bool.not_eq_true, reserveGuard_eq_true_iff]
      intro hb
      exact hb.2.2.2 ⟨r, hr, hrp, Or.inl hrs⟩
    have hany : (t.reservations.any fun x =>
        x.passenger == caller && x.status == ResStatus.confirmed) = false := by
      rw [List.any_eq_false]
      intro x hx hcon
      rw [Bool.and_eq_true, beq_iff_eq, beq_iff_eq] at hcon
      exact hnconf ⟨x, hx, hcon.1, hcon.2⟩
    rw [hred]
    simp only [postReservationCore, hg, Bool.false_eq_true, if_false]
    rw [if_neg (fun h => hdrv h), if_neg (by rcases hst with h | h <;> simp [h]),
        if_neg (not_lt.mpr havail), if_neg (by simp [hany])]
  · intro st msg h
    simp [applyOp, h]

/-- Witness for C4 (amended): with the reservation already confirmed the
duplicate message is returned; the counterexample theorem covers the
pending case. -/
theorem c4_duplicate_reservation_amended_witness :
    (1 ≤ fixReq1.seats ∧ fixTripConfirmed.driver ≠ 2 ∧
      fixTripConfirmed.status = .scheduled ∧
      fixReq1.seats.toNat ≤ fixTripConfirmed.seatsAvailable) ∧
    postReservation (some fixTripConfirmed) 2 1 fixReq1 =
      .err 400 "Ya tienes una reserva activa en este viaje" := by
  refine ⟨by decide, ?_⟩
  exact (c4_duplicate_reservation_amended fixTripConfirmed 2 1 fixReq1 [fixPpt]
    (by decide) (by decide) (by decide) (Or.inl rfl) (by decide) (Or.inl rfl)
    (by decide)).1 ⟨fixRes .confirmed, by decide, by decide, rfl⟩

/-! ## Lemmas about the seat invariants -/

theorem activeSeats_append (rs : List Reservation) (r : Reservation) :
    activeSeats (rs ++ [r]) = activeSeats rs + (if r.isActive then r.seats else 0) := by
  induction rs with
  | nil => simp [activeSeats]
  | cons x xs ih => simp [activeSeats, ih]; omega

theorem activeSeats_updateFirst (p : Reservation → Bool)
    (f : Reservation → Reservation) (rs : List Reservation) (r : Reservation)
    (hfind : rs.find? p = some r) :
    activeSeats (updateFirst p f rs) + (if r.isActive then r.seats else 0) =
      activeSeats rs + (if (f r).isActive then (f r).seats else 0) := by
  induction rs with
  | nil => simp at hfind
  | cons x xs ih =>
    by_cases hx : p x
    · rw [List.find?_cons_of_pos _ hx] at hfind
      cases hfind
      simp only [updateFirst, hx, if_true, activeSeats]
      omega
    · rw [List.find?_cons_of_neg _ hx] at hfind
      simp only [updateFirst, hx, if_false, activeSeats]
      have := ih hfind
      omega

theorem adjustTripCapacity_seatsAvailable (t : Trip) :
    (adjustTripCapacity t).seatsAvailable = t.seatsAvailable := by
  simp only [adjustTripCapacity]
  split <;> split <;> rfl

theorem adjustTripCapacity_seatsTotal (t : Trip) :
    (adjustTripCapacity t).seatsTotal = t.seatsTotal := by
  simp only [adjustTripCapacity]
  split <;> split <;> rfl

theorem adjustTripCapacity_reservations (t : Trip) :
    (adjustTripCapacity t).reservations = t.reservations := by
  simp only [adjustTripCapacity]
  split <;> split <;> rfl

theorem seatInv_adjustTripCapacity (t : Trip) :
    seatInv (adjustTripCapacity t) ↔ seatInv t := by
  unfold seatInv
  rw [adjustTripCapacity_seatsAvailable, adjustTripCapacity_seatsTotal,
    adjustTripCapacity_reservations]

/-- Status normalization after a seat change establishes the status
bijection unconditionally. -/
theorem statusInv_adjustTripCapacity (t : Trip) :
    statusInv (adjustTripCapacity t) := by
  unfold statusInv adjustTripCapacity
  cases ht : t.status <;>
    by_cases h0 : t.seatsAvailable = 0 <;>
      simp [ht, h0, Nat.pos_of_ne_zero]

/-- `adjustTripCapacity` flips the status only between `scheduled` and
`full`. -/
theorem adjustTripCapacity_status_cases (t : Trip) :
    (adjustTripCapacity t).status = t.status ∨
    (t.status = .scheduled ∧ (adjustTripCapacity t).status = .full) ∨
    (t.status = .full ∧ (adjustTripCapacity t).status = .scheduled) := by
  unfold adjustTripCapacity
  cases ht : t.status <;> by_cases h0 : t.seatsAvailable = 0 <;>
    simp [ht, h0, Nat.pos_of_ne_zero]

/-! ## Inversion lemmas for the reservation handlers -/

theorem postReservation_ok_inversion (t : Trip) (caller newId : Nat)
    (req : ReservationRequest) (st : Nat) (t1 : Trip)
    (h : postReservation (some t) caller newId req = .ok st t1) :
    ∃ pts pm, st = 201 ∧ 1 ≤ req.seats.toNat ∧
      reserveGuard t caller req.seats.toNat = true ∧
      t1 = reserveSuccess t caller newId req.seats.toNat pts pm := by
  unfold postReservation at h
  by_cases h1 : (1 : Int) ≤ req.seats
  case neg => simp [h1] at h
  by_cases h2 : req.pickupPoints.length = req.seats.toNat
  case neg => simp [h1, h2] at h
  rcases hn : normalizeAll req.pickupPoints with e | pts
  · simp [h1, h2, hn] at h
  have hcore : ∃ pm, postReservationCore (some t) caller newId req.seats.toNat
      pts pm = .ok st t1 := by
    rcases hp : req.paymentMethod with _ | pm
    · exact ⟨"cash", by simpa [h1, h2, hn, hp] using h⟩
    · by_cases hv : pm ≠ "" ∧ pm ≠ "cash" ∧ pm ≠ "nequi"
      · simp [h1, h2, hn, hp, hv] at h
      · exact ⟨if pm = "" then "cash" else pm, by simpa [h1, h2, hn, hp, hv] using h⟩
  obtain ⟨pm, hcore⟩ := hcore
  refine ⟨pts, pm, ?_⟩
  cases hg : reserveGuard t caller req.seats.toNat with
  | false =>
    exact absurd hcore (postReservationCore_not_ok t caller newId
      req.seats.toNat pts pm hg st t1)
  | true =>
    rw [postReservationCore, if_pos hg] at hcore
    cases hcore
    exact ⟨rfl, by omega, rfl, rfl⟩

theorem confirmReservation_ok_inversion (t : Trip) (caller resId : Nat)
    (st : Nat) (t1 : Trip)
    (h : confirmReservation t caller resId = .ok st t1) :
    t1 = t ∨
    ∃ r, t.reservations.find? (fun x => x.id == resId) = some r ∧
      r.status = .pending ∧ t1 = confirmApplied t resId := by
  unfold confirmReservation at h
  by_cases hd : t.driver ≠ caller
  · simp [hd] at h
  rcases hf : t.reservations.find? (fun x => x.id == resId) with _ | r
  · simp [hd, hf] at h
  simp only [hd, if_false, hf] at h
  by_cases hs1 : r.status = .rejected ∨ r.status = .cancelled
  · simp [hs1] at h
  by_cases hs2 : r.status = .confirmed
  · rw [if_neg hs1, if_pos hs2] at h
    cases h
    exact Or.inl rfl
  by_cases hs3 : r.status ≠ .pending
  · simp [hs1, hs2, hs3] at h
  rw [if_neg hs1, if_neg hs2, if_neg (by simpa using hs3)] at h
  cases h
  exact Or.inr ⟨r, hf, not_not.mp hs3, rfl⟩

theorem rejectReservation_ok_inversion (t : Trip) (caller resId : Nat)
    (st : Nat) (t1 : Trip)
    (h : rejectReservation t caller resId = .ok st t1) :
    t1 = t ∨
    ∃ r, t.reservations.find? (fun x => x.id == resId) = some r ∧
      r.status = .pending ∧ t1 = rejectApplied t resId r := by
  unfold rejectReservation at h
  by_cases hd : t.driver ≠ caller
  · simp [hd] at h
  rcases hf : t.reservations.find? (fun x => x.id == resId) with _ | r
  · simp [hd, hf] at h
  simp only [hd, if_false, hf] at h
  by_cases hs1 : r.status = .rejected ∨ r.status = .cancelled
  · rw [if_pos hs1] at h
    cases h
    exact Or.inl rfl
  by_cases hs2 : r.status ≠ .pending
  · simp [hs1, hs2] at h
  rw [if_neg hs1, if_neg (by simpa using hs2)] at h
  cases h
  exact Or.inr ⟨r, hf, not_not.mp hs2, rfl⟩

theorem cancelReservation_ok_inversion (t : Trip) (caller resId : Nat)
    (st : Nat) (t1 : Trip)
    (h : cancelReservation t caller resId = .ok st t1) :
    t1 = t ∨
    ∃ r, t.reservations.find? (fun x => x.id == resId) = some r ∧
      (r.status = .pending ∨ r.status = .confirmed) ∧
      t1 = cancelResApplied t resId r := by
  unfold cancelReservation at h
  rcases hf : t.reservations.find? (fun x => x.id == resId) with _ | r
  · simp [hf] at h
  simp only [hf] at h
  by_cases hauth : t.driver ≠ caller ∧ r.passenger ≠ caller
  · simp [hauth] at h
  by_cases hs1 : r.status = .cancelled ∨ r.status = .rejected
  · rw [if_neg hauth, if_pos hs1] at h
    cases h
    exact Or.inl rfl
  rw [if_neg hauth, if_neg hs1] at h
  cases h
  refine Or.inr ⟨r, hf, ?_, rfl⟩
  cases hr : r.status <;> simp_all

theorem cancelTrip_ok_inversion (t : Trip) (caller : Nat) (st : Nat) (t1 : Trip)
    (h : cancelTrip t caller = .ok st t1) :
    t1 = cancelTripApplied t := by
  unfold cancelTrip at h
  by_cases hd : t.driver ≠ caller
  · simp [hd] at h
  rw [if_neg hd] at h
  cases h
  rfl

/-! ## Per-operation invariant preservation -/

theorem seatInv_reserveSuccess (t : Trip) (caller newId s : Nat)
    (pts : List PickupPoint) (pm : String)
    (hg : reserveGuard t caller s = true) (hinv : seatInv t) :
    seatInv (reserveSuccess t caller newId s pts pm) := by
  obtain ⟨-, hs2, -, -⟩ := (reserveGuard_eq_true_iff t caller s).mp hg
  unfold seatInv at *
  rw [reserveSuccess_seatsAvailable, reserveSuccess_seatsTotal,
    reserveSuccess_reservations, activeSeats_append]
  simp [Reservation.isActive]
  omega

theorem seatInv_confirmApplied (t : Trip) (resId : Nat) (r : Reservation)
    (hf : t.reservations.find? (fun x => x.id == resId) = some r)
    (hp : r.status = .pending) (hinv : seatInv t) :
    seatInv (confirmApplied t resId) := by
  have hact := activeSeats_updateFirst (fun x => x.id == resId)
    (fun x => { x with status := .confirmed }) t.reservations r hf
  simp [Reservation.isActive, hp] at hact
  unfold confirmApplied
  rw [seatInv_adjustTripCapacity]
  unfold seatInv at *
  simp only at *
  omega

theorem seatInv_rejectApplied (t : Trip) (resId : Nat) (r : Reservation)
    (hf : t.reservations.find? (fun x => x.id == resId) = some r)
    (hp : r.status = .pending) (hinv : seatInv t) :
    seatInv (rejectApplied t resId r) := by
  have hact := activeSeats_updateFirst (fun x => x.id == resId)
    (fun x => { x with status := .rejected }) t.reservations r hf
  simp [Reservation.isActive, hp] at hact
  unfold rejectApplied
  rw [seatInv_adjustTripCapacity]
  unfold seatInv at *
  simp only at *
  omega

theorem seatInv_cancelResApplied (t : Trip) (resId : Nat) (r : Reservation)
    (hf : t.reservations.find? (fun x => x.id == resId) = some r)
    (hp : r.status = .pending ∨ r.status = .confirmed) (hinv : seatInv t) :
    seatInv (cancelResApplied t resId r) := by
  have hact := activeSeats_updateFirst (fun x => x.id == resId)
    (fun x => { x with status := .cancelled }) t.reservations r hf
  rcases hp with hp | hp <;> simp [Reservation.isActive, hp] at hact <;>
    · unfold cancelResApplied
      rw [seatInv_adjustTripCapacity]
      unfold seatInv at *
      simp only at *
      omega

theorem statusInv_reserveSuccess (t : Trip) (caller newId s : Nat)
    (pts : List PickupPoint) (pm : String) (hpos : 1 ≤ s)
    (hg : reserveGuard t caller s = true) (hinv : statusInv t) :
    statusInv (reserveSuccess t caller newId s pts pm) := by
  obtain ⟨hst, hs2, -, -⟩ := (reserveGuard_eq_true_iff t caller s).mp hg
  rcases hst with hsch | hfull
  · unfold statusInv reserveSuccess
    by_cases h0 : t.seatsAvailable - s = 0 <;> simp [h0, hsch]
  · exfalso
    have h0 : t.seatsAvailable = 0 := ((hinv.mp hfull)).1
    omega

/-- C2 counterexample: a trip with one confirmed two-seat reservation
satisfies seat conservation, but after the driver cancels the trip,
seatsAvailable is forced to 0 while every reservation is cancelled, so
`seatsAvailable = seatsTotal − Σ(active seats)` becomes `0 = 3 − 0`,
which is false. -/
theorem c2_seat_conservation_counterexample :
    seatInv fixTripConfirmed ∧
    applyOp fixTripConfirmed (.cancelTrip 1) = cancelTripApplied fixTripConfirmed ∧
    ¬ seatInv (applyOp fixTripConfirmed (.cancelTrip 1)) := by
  decide

/-- C2 (amended): seat conservation — `seatsAvailable = seatsTotal −
Σ(r.seats, r pending/confirmed)` — holds after trip creation and is
preserved by reservation creation, confirm, reject, and reservation
cancel; trip cancel instead forces seatsAvailable to 0 while cancelling
every reservation, breaking the equality for any trip with
seatsTotal ≥ 1. -/
theorem c2_seat_conservation_amended :
    (∀ d v dep n, seatInv (mkTrip d v dep n))
    ∧ (∀ t op, (∀ c, op ≠ TripOp.cancelTrip c) → seatInv t →
        seatInv (applyOp t op)) := by
  constructor
  · intro d v dep n
    unfold seatInv mkTrip activeSeats
    simp
  · intro t op hnc hinv
    cases op with
    | reserve c nid req =>
      simp only [applyOp]
      cases hres : postReservation (some t) c nid req with
      | err _ _ => exact hinv
      | ok st t1 =>
        obtain ⟨pts, pm, -, -, hg, rfl⟩ :=
          postReservation_ok_inversion t c nid req st t1 hres
        exact seatInv_reserveSuccess t c nid req.seats.toNat pts pm hg hinv
    | confirm c rid =>
      simp only [applyOp]
      cases hres : confirmReservation t c rid with
      | err _ _ => exact hinv
      | ok st t1 =>
        rcases confirmReservation_ok_inversion t c rid st t1 hres with
          rfl | ⟨r, hf, hp, rfl⟩
        · exact hinv
        · exact seatInv_confirmApplied t rid r hf hp hinv
    | reject c rid =>
      simp only [applyOp]
      cases hres : rejectReservation t c rid with
      | err _ _ => exact hinv
      | ok st t1 =>
        rcases rejectReservation_ok_inversion t c rid st t1 hres with
          rfl | ⟨r, hf, hp, rfl⟩
        · exact hinv
        · exact seatInv_rejectApplied t rid r hf hp hinv
    | cancelRes c rid =>
      simp only [applyOp]
      cases hres : cancelReservation t c rid with
      | err _ _ => exact hinv
      | ok st t1 =>
        rcases cancelReservation_ok_inversion t c rid st t1 hres with
          rfl | ⟨r, hf, hp, rfl⟩
        · exact hinv
        · exact seatInv_cancelResApplied t rid r hf hp hinv
    | cancelTrip c => exact absurd rfl (hnc c)

/-- Witness for C2 (amended): confirming the pending reservation on the
fixture trip preserves seat conservation. -/
theorem c2_seat_conservation_amended_witness :
    ((∀ c, TripOp.confirm 1 0 ≠ TripOp.cancelTrip c) ∧ seatInv fixTripPending) ∧
    seatInv (applyOp fixTripPending (.confirm 1 0)) := by
  refine ⟨⟨fun c h => TripOp.noConfusion h, by decide⟩, ?_⟩
  exact c2_seat_conservation_amended.2 fixTripPending (.confirm 1 0)
    (fun c h => TripOp.noConfusion h) (by decide)

/-- C3: the status bijection `status = full ⇔ seatsAvailable = 0 ∧
status ∉ {cancelled, completed}` holds for a freshly created trip (with
at least one seat) and is preserved by every trip operation; seat-change
normalization only ever flips `scheduled ⇄ full` and leaves `cancelled`
and `completed` untouched. -/
theorem c3_status_bijection :
    (∀ d v dep n, 1 ≤ n → statusInv (mkTrip d v dep n))
    ∧ (∀ t op, statusInv t → statusInv (applyOp t op))
    ∧ (∀ t, (t.status = .cancelled ∨ t.status = .completed) →
        adjustTripCapacity t = t)
    ∧ (∀ t, (adjustTripCapacity t).status = t.status ∨
        (t.status = .scheduled ∧ (adjustTripCapacity t).status = .full) ∨
        (t.status = .full ∧ (adjustTripCapacity t).status = .scheduled)) := by
  refine ⟨?_, ?_, ?_, adjustTripCapacity_status_cases⟩
  · intro d v dep n hn
    unfold statusInv mkTrip
    simp
    omega
  · intro t op hinv
    cases op with
    | reserve c nid req =>
      simp only [applyOp]
      cases hres : postReservation (some t) c nid req with
      | err _ _ => exact hinv
      | ok st t1 =>
        obtain ⟨pts, pm, -, hpos, hg, rfl⟩ :=
          postReservation_ok_inversion t c nid req st t1 hres
        exact statusInv_reserveSuccess t c nid req.seats.toNat pts pm hpos hg hinv
    | confirm c rid =>
      simp only [applyOp]
      cases hres : confirmReservation t c rid with
      | err _ _ => exact hinv
      | ok st t1 =>
        rcases confirmReservation_ok_inversion t c rid st t1 hres with
          rfl | ⟨r, hf, hp, rfl⟩
        · exact hinv
        · exact statusInv_adjustTripCapacity _
    | reject c rid =>
      simp only [applyOp]
      cases hres : rejectReservation t c rid with
      | err _ _ => exact hinv
      | ok st t1 =>
        rcases rejectReservation_ok_inversion t c rid st t1 hres with
          rfl | ⟨r, hf, hp, rfl⟩
        · exact hinv
        · exact statusInv_adjustTripCapacity _
    | cancelRes c rid =>
      simp only [applyOp]
      cases hres : cancelReservation t c rid with
      | err _ _ => exact hinv
      | ok st t1 =>
        rcases cancelReservation_ok_inversion t c rid st t1 hres with
          rfl | ⟨r, hf, hp, rfl⟩
        · exact hinv
        · exact statusInv_adjustTripCapacity _
    | cancelTrip c =>
      simp only [applyOp]
      cases hres : cancelTrip t c with
      | err _ _ => exact hinv
      | ok st t1 =>
        rw [cancelTrip_ok_inversion t c st t1 hres]
        unfold statusInv cancelTripApplied
        simp
  · intro t h
    unfold adjustTripCapacity
    rcases h with h | h <;> simp [h]

/-- Witness for C3: a three-seat trip satisfies the bijection at
creation, and booking the last seat of the fixture trip preserves it. -/
theorem c3_status_bijection_witness :
    ((1 : Nat) ≤ 3 ∧ statusInv fixTripPending) ∧
    statusInv (mkTrip 1 10 5 3) ∧
    statusInv (applyOp fixTripPending (.reserve 3 1 fixReq1)) := by
  refine ⟨⟨by decide, by decide⟩, ?_, ?_⟩
  · exact c3_status_bijection.1 1 10 5 3 (by decide)
  · exact c3_status_bijection.2.1 fixTripPending (.reserve 3 1 fixReq1) (by decide)

/-! ## Password reset -/

theorem find?_updateFirst_self (p : α → Bool) (f : α → α) (l : List α) (x : α)
    (hf : l.find? p = some x) (hfx : p (f x) = true) :
    (updateFirst p f l).find? p = some (f x) := by
  induction l with
  | nil => simp at hf
  | cons y ys ih =>
    by_cases hy : p y
    · rw [List.find?_cons_of_pos _ hy] at hf
      cases hf
      simp [updateFirst, hy, List.find?_cons_of_pos _ hfx]
    · rw [List.find?_cons_of_neg _ hy] at hf
      simp [updateFirst, hy, List.find?_cons_of_neg _ hy, ih hf]

theorem resetPassword_notfound (st : Store) (token pw : String) (now : Int)
    (hash : String → String)
    (hg : ¬(token = "" ∨ pw = "" ∨ pw.length < 6))
    (hf : st.resets.find? (fun r => r.token == token) = none) :
    resetPassword st token pw now hash = ((400, "Token inválido o expirado"), st) := by
  unfold resetPassword
  rw [if_neg hg, hf]

theorem resetPassword_spent (st : Store) (token pw : String) (now : Int)
    (hash : String → String) (pr : ResetRec)
    (hg : ¬(token = "" ∨ pw = "" ∨ pw.length < 6))
    (hf : st.resets.find? (fun r => r.token == token) = some pr)
    (hc : pr.used = true ∨ pr.expiresAt < now) :
    resetPassword st token pw now hash = ((400, "Token inválido o expirado"), st) := by
  unfold resetPassword
  rw [if_neg hg, hf]
  exact if_pos hc

theorem resetPassword_nouser (st : Store) (token pw : String) (now : Int)
    (hash : String → String) (pr : ResetRec)
    (hg : ¬(token = "" ∨ pw = "" ∨ pw.length < 6))
    (hf : st.resets.find? (fun r => r.token == token) = some pr)
    (hc : ¬(pr.used = true ∨ pr.expiresAt < now))
    (hu : st.users.find? (fun u => u.id == pr.userId) = none) :
    resetPassword st token pw now hash = ((400, "Usuario no encontrado"), st) := by
  unfold resetPassword
  rw [if_neg hg]
  simp only [hf]
  rw [if_neg hc]
  simp only [hu]

theorem resetPassword_success_eq (st : Store) (token pw : String) (now : Int)
    (hash : String → String) (pr : ResetRec) (u : UserRec)
    (hg : ¬(token = "" ∨ pw = "" ∨ pw.length < 6))
    (hf : st.resets.find? (fun r => r.token == token) = some pr)
    (hused : pr.used = false) (hexp : ¬ pr.expiresAt < now)
    (hu : st.users.find? (fun x => x.id == pr.userId) = some u) :
    resetPassword st token pw now hash =
      ((200, "ok"), resetSuccessState st token pw pr.userId hash) := by
  unfold resetPassword
  rw [if_neg hg]
  simp only [hf]
  rw [if_neg (not_or.mpr ⟨by simp [hused], hexp⟩)]
  simp only [hu]

/-- C5: evaluation of the embedded `POST /auth/forgot-password` handler
for a registered user holding a prior unused token: the raw random hex
secret is persisted verbatim as the record's `token`, the expiry is 60
minutes (not 15), and the earlier unused token stays unused — contrary
to the claim and to the repository's own test
(`issues short-lived hashed password reset tokens` in auth.test.js). -/
theorem c5_forgot_password_raw_token_one_hour :
    (forgotPassword fixAuthStore "reset@unisabana.edu.co" "cafebabe" 100).1 = (200, true)
    ∧ (forgotPassword fixAuthStore "reset@unisabana.edu.co" "cafebabe" 100).2.resets
        = [fixResetOld, fixResetNew]
    ∧ fixResetNew.token = "cafebabe"
    ∧ fixResetNew.expiresAt - 100 = 1000 * 60 * 60
    ∧ fixResetNew.expiresAt - 100 ≠ 1000 * 60 * 15
    ∧ fixResetOld.used = false
    ∧ fixResetNew.used = false := by
  decide

/-- C6: with a well-formed request (non-empty token, password of length
at least 6), reset-password answers TOKEN_INVALID_OR_EXPIRED exactly
when the token is unknown, already used, or expired; every 400 leaves
the store (hence the password hash) unchanged; on success the user's
hash is replaced, the token is marked used, and any second redemption of
the same token answers TOKEN_INVALID_OR_EXPIRED. -/
theorem c6_reset_password_exactly_once (st : Store) (token pw : String)
    (now : Int) (hash : String → String)
    (htok : token ≠ "") (hlen : 6 ≤ pw.length) :
    ((resetPassword st token pw now hash).1 = (400, "Token inválido o expirado") ↔
      (st.resets.find? (fun r => r.token == token) = none ∨
        ∃ r, st.resets.find? (fun x => x.token == token) = some r ∧
          (r.used = true ∨ r.expiresAt < now)))
    ∧ ((resetPassword st token pw now hash).1.1 = 400 →
        (resetPassword st token pw now hash).2 = st)
    ∧ (∀ r u, st.resets.find? (fun x => x.token == token) = some r →
        r.used = false → ¬ r.expiresAt < now →
        st.users.find? (fun x => x.id == r.userId) = some u →
        (resetPassword st token pw now hash).1 = (200, "ok")
        ∧ (resetPassword st token pw now hash).2.users.find?
            (fun x => x.id == r.userId) = some { u with passwordHash := hash pw }
        ∧ (resetPassword st token pw now hash).2.resets.find?
            (fun x => x.token == token) = some { r with used := true }
        ∧ (∀ pw2 now2, 6 ≤ pw2.length →
            (resetPassword (resetPassword st token pw now hash).2
              token pw2 now2 hash).1 = (400, "Token inválido o expirado"))) := by
  have hpwne : pw ≠ "" := by
    intro h
    rw [h] at hlen
    simp at hlen
  have hg : ¬(token = "" ∨ pw = "" ∨ pw.length < 6) :=
    not_or.mpr ⟨htok, not_or.mpr ⟨hpwne, by omega⟩⟩
  refine ⟨?_, ?_, ?_⟩
  · rcases hf : st.resets.find? (fun r => r.token == token) with _ | pr
    · rw [resetPassword_notfound st token pw now hash hg hf]
      exact iff_of_true rfl (Or.inl hf)
    · by_cases hc : pr.used = true ∨ pr.expiresAt < now
      · rw [resetPassword_spent st token pw now hash pr hg hf hc]
        exact iff_of_true rfl (Or.inr ⟨pr, hf, hc⟩)
      · rcases hu : st.users.find? (fun x => x.id == pr.userId) with _ | u
        · rw [resetPassword_nouser st token pw now hash pr hg hf hc hu]
          constructor
          · intro h
            injection h with h1 h2
            exact absurd h2 (by decide)
          · rintro (h | ⟨r, hr, hcond⟩)
            · rw [hf] at h
              exact Option.noConfusion h
            · rw [hf] at hr
              cases hr
              exact absurd hcond hc
        · rw [resetPassword_success_eq st token pw now hash pr u hg hf
            (by simpa using (not_or.mp hc).1) ((not_or.mp hc).2) hu]
          constructor
          · intro h
            injection h with h1 h2
            exact absurd h1 (by decide)
          · rintro (h | ⟨r, hr, hcond⟩)
            · rw [hf] at h
              exact Option.noConfusion h
            · rw [hf] at hr
              cases hr
              exact absurd hcond hc
  · intro h400
    rcases hf : st.resets.find? (fun r => r.token == token) with _ | pr
    · rw [resetPassword_notfound st token pw now hash hg hf]
    · by_cases hc : pr.used = true ∨ pr.expiresAt < now
      · rw [resetPassword_spent st token pw now hash pr hg hf hc]
      · rcases hu : st.users.find? (fun x => x.id == pr.userId) with _ | u
        · rw [resetPassword_nouser st token pw now hash pr hg hf hc hu]
        · exfalso
          rw [resetPassword_success_eq st token pw now hash pr u hg hf
            (by simpa using (not_or.mp hc).1) ((not_or.mp hc).2) hu] at h400
          simp at h400
  · intro r u hf hused hexp hu
    have heq := resetPassword_success_eq st token pw now hash r u hg hf hused hexp hu
    have hpu := List.find?_some hu
    have hpr := List.find?_some hf
    have husers := find?_updateFirst_self (fun x => x.id == r.userId)
      (fun x => { x with passwordHash := hash pw }) st.users u hu hpu
    have hresets := find?_updateFirst_self (fun x => x.token == token)
      (fun x => { x with used := true }) st.resets r hf hpr
    refine ⟨by rw [heq], ?_, ?_, ?_⟩
    · rw [heq]
      exact husers
    · rw [heq]
      exact hresets
    · intro pw2 now2 hlen2
      have hpw2ne : pw2 ≠ "" := by
        intro h
        rw [h] at hlen2
        simp at hlen2
      have hg2 : ¬(token = "" ∨ pw2 = "" ∨ pw2.length < 6) :=
        not_or.mpr ⟨htok, not_or.mpr ⟨hpw2ne, by omega⟩⟩
      have hf2 : (resetSuccessState st token pw r.userId hash).resets.find?
          (fun x => x.token == token) = some { r with used := true } := hresets
      rw [heq]
      rw [resetPassword_spent (resetSuccessState st token pw r.userId hash)
        token pw2 now2 hash { r with used := true } hg2 hf2 (Or.inl rfl)]

/-- Witness for C6: redeeming the fixture token once succeeds; the same
token a second time is rejected. -/
theorem c6_reset_password_exactly_once_witness :
    ("aaaa" ≠ "" ∧ (6 : Nat) ≤ "NuevoPass123".length ∧ fixResetOld.used = false) ∧
    (resetPassword fixAuthStore "aaaa" "NuevoPass123" 40 (fun s => "b:" ++ s)).1
      = (200, "ok") ∧
    (resetPassword (resetPassword fixAuthStore "aaaa" "NuevoPass123" 40
        (fun s => "b:" ++ s)).2 "aaaa" "NuevoPass123" 40 (fun s => "b:" ++ s)).1
      = (400, "Token inválido o expirado") := by
  refine ⟨⟨by decide, by decide, by decide⟩, ?_⟩
  have h := (c6_reset_password_exactly_once fixAuthStore "aaaa" "NuevoPass123" 40
    (fun s => "b:" ++ s) (by decide) (by decide)).2.2 fixResetOld fixUser
    (by decide) (by decide) (by decide) (by decide)
  exact ⟨h.1, h.2.2.2 "NuevoPass123" 40 (by decide)⟩

/-- C10: a password of length 6 or 7 is rejected by registration
(`Contraseña muy corta (min 8)`) yet accepted by the reset flow, which
only requires length ≥ 6: with a valid, unused, non-expired token the
reset succeeds and installs the short password's hash. -/
theorem c10_reset_accepts_shorter_password (pw : String)
    (h6 : 6 ≤ pw.length) (h8 : pw.length < 8) :
    (∀ st hash now nuid nvid outcome,
      register st (fixRegBody pw) hash now nuid nvid outcome =
        ((400, "Contraseña muy corta (min 8)"), st))
    ∧ (∀ st (token : String) (now : Int) hash r u, token ≠ "" →
        st.resets.find? (fun x => x.token == token) = some r →
        r.used = false → ¬ r.expiresAt < now →
        st.users.find? (fun x => x.id == r.userId) = some u →
        resetPassword st token pw now hash =
          ((200, "ok"), resetSuccessState st token pw r.userId hash)) := by
  constructor
  · intro st hash now nuid nvid outcome
    have hval : validateInstitutionalEmail (some "laura@unisabana.edu.co") =
        Except.ok "laura@unisabana.edu.co" := by decide
    unfold register
    simp only [fixRegBody, Option.getD_some, hval]
    rw [if_neg (by decide : ¬(("Laura" : String) = "" ∨
      ("Gonzalez" : String) = "" ∨ ("A00012345" : String) = "" ∨
      ("3001234567" : String) = ""))]
    rw [if_pos (Or.inr h8)]
  · intro st token now hash r u htok hf hused hexp hu
    have hpwne : pw ≠ "" := by
      intro h
      rw [h] at h6
      simp at h6
    have hg : ¬(token = "" ∨ pw = "" ∨ pw.length < 6) :=
      not_or.mpr ⟨htok, not_or.mpr ⟨hpwne, by omega⟩⟩
    exact resetPassword_success_eq st token pw now hash r u hg hf hused hexp hu

/-- Witness for C10: the 7-character password "seven77" is rejected by
registration but set successfully through the reset flow. -/
theorem c10_reset_accepts_shorter_password_witness :
    ((6 : Nat) ≤ "seven77".length ∧ "seven77".length < 8) ∧
    register emptyStore (fixRegBody "seven77") (fun s => s) 0 1 2 (.ok ()) =
      ((400, "Contraseña muy corta (min 8)"), emptyStore) ∧
    resetPassword fixAuthStore "aaaa" "seven77" 40 (fun s => s) =
      ((200, "ok"), resetSuccessState fixAuthStore "aaaa" "seven77" 1 (fun s => s)) := by
  refine ⟨by decide, ?_, ?_⟩
  · exact (c10_reset_accepts_shorter_password "seven77" (by decide) (by decide)).1
      emptyStore (fun s => s) 0 1 2 (.ok ())
  · exact (c10_reset_accepts_shorter_password "seven77" (by decide) (by decide)).2
      fixAuthStore "aaaa" 40 (fun s => s) fixResetOld fixUser (by decide)
      (by decide) (by decide) (by decide) (by decide)

/-! ## Registration and the welcome email -/

theorem any_updateFirst_of_preserve (p q : α → Bool) (f : α → α) (l : List α)
    (hl : l.any q = true) (hpres : ∀ x, q x = true → q (f x) = true) :
    (updateFirst p f l).any q = true := by
  induction l with
  | nil => simp at hl
  | cons x xs ih =>
    rw [List.any_cons] at hl
    unfold updateFirst
    by_cases hx : p x
    · rw [if_pos hx, List.any_cons]
      rcases (Bool.or_eq_true _ _).mp hl with h | h
      · exact (Bool.or_eq_true _ _).mpr (Or.inl (hpres x h))
      · exact (Bool.or_eq_true _ _).mpr (Or.inr h)
    · rw [if_neg hx, List.any_cons]
      rcases (Bool.or_eq_true _ _).mp hl with h | h
      · simp [h]
      · simp [ih h]

/-- C8: when every registration validation passes (for either role), an
error raised by the welcome-email sender does not fail the registration:
the response is still 201, the created user — and for a driver the
created vehicle — stays persisted, and the handler's result does not
depend on the sender's outcome at all. -/
theorem c8_email_error_does_not_fail_registration
    (st : Store) (body : RegisterBody) (hash : String → String) (now : Int)
    (nuid nvid : Nat) (err : String) (e : String)
    (hemail : validateInstitutionalEmail body.email = .ok e)
    (hfn : body.firstName.getD "" ≠ "") (hln : body.lastName.getD "" ≠ "")
    (hui : body.universityId.getD "" ≠ "") (hph : body.phone.getD "" ≠ "")
    (hpw : 8 ≤ (body.password.getD "").length ∧ body.password.getD "" ≠ "")
    (hrole : body.role.getD "passenger" = "passenger" ∨
      body.role.getD "passenger" = "driver")
    (hpm : body.preferredPaymentMethod.getD "" = "" ∨
      body.preferredPaymentMethod.getD "" = "cash" ∨
      body.preferredPaymentMethod.getD "" = "nequi")
    (hnodup : st.users.any (fun u => u.email == e) = false)
    (hveh : body.role.getD "passenger" = "driver" →
      missingVehicleFields body.vehicle = [] ∧ capacityOk body.vehicle = true ∧
      ∃ vb, body.vehicle = some vb ∧
        ¬(vb.soatExpiration.getD 0 < now) ∧ ¬(vb.licenseExpiration.getD 0 < now) ∧
        st.vehicles.any (fun v => v.plate == vb.plate.getD "") = false ∧
        st.vehicles.any (fun v => v.owner == nuid) = false) :
    (register st body hash now nuid nvid (.error err)).1 = (201, "ok")
    ∧ ((register st body hash now nuid nvid (.error err)).2.users.any
        (fun u => u.id == nuid)) = true
    ∧ (body.role.getD "passenger" = "driver" →
        ((register st body hash now nuid nvid (.error err)).2.vehicles.any
          (fun v => v.id == nvid)) = true)
    ∧ register st body hash now nuid nvid (.error err)
        = register st body hash now nuid nvid (.ok ()) := by
  have hmain : ∃ finalStore,
      register st body hash now nuid nvid (.error err) = ((201, "ok"), finalStore)
      ∧ finalStore.users.any (fun u => u.id == nuid) = true
      ∧ (body.role.getD "passenger" = "driver" →
          finalStore.vehicles.any (fun v => v.id == nvid) = true) := by
    unfold register
    simp only [hemail]
    rw [if_neg (by push_neg; exact ⟨hfn, hln, hui, hph⟩)]
    rw [if_neg (not_or.mpr ⟨hpw.2, by omega⟩)]
    rw [if_neg (by rcases hrole with h | h <;> simp [h])]
    rw [if_neg (by rcases hpm with h | h | h <;> simp [h])]
    rw [if_neg (fun hc => hc.2 (hveh hc.1).1)]
    rw [if_neg (fun hc => hc.2 (hveh hc.1).2.1)]
    rw [if_neg (by simp [hnodup])]
    rcases hrole with hp | hd
    · rw [if_neg (by rw [hp]; decide)]
      simp only [sendWelcomeEmail]
      refine ⟨_, rfl, ?_, ?_⟩
      · simp [List.any_append]
      · intro hdd
        exact absurd (hp.symm.trans hdd) (by decide)
    · rw [if_pos hd]
      obtain ⟨hm, hcap, vb, hvb, hsoat, hlic, hplate, howner⟩ := hveh hd
      simp only [hvb]
      rw [if_neg (not_or.mpr ⟨hsoat, hlic⟩)]
      rw [if_neg (by simp [hplate])]
      rw [if_neg (by simp [howner])]
      simp only [sendWelcomeEmail]
      refine ⟨_, rfl, ?_, fun _ => ?_⟩
      · apply any_updateFirst_of_preserve
        · simp [List.any_append]
        · intro x hx
          simpa using hx
      · simp [List.any_append]
  obtain ⟨fs, heq, hu, hv⟩ := hmain
  exact ⟨by rw [heq], by rw [heq]; exact hu,
    fun hdd => by rw [heq]; exact hv hdd, rfl⟩

/-- Witness for C8: a driver registration whose email sender reports
"smtp down" still returns 201 with both user (id 1) and vehicle (id 2)
persisted. -/
theorem c8_email_error_does_not_fail_registration_witness :
    (validateInstitutionalEmail fixDriverBody.email =
        .ok "driver@unisabana.edu.co"
      ∧ missingVehicleFields fixDriverBody.vehicle = []
      ∧ capacityOk fixDriverBody.vehicle = true) ∧
    (register emptyStore fixDriverBody (fun s => s) 0 1 2 (.error "smtp down")).1
      = (201, "ok") ∧
    ((register emptyStore fixDriverBody (fun s => s) 0 1 2
        (.error "smtp down")).2.users.any (fun u => u.id == 1)) = true ∧
    ((register emptyStore fixDriverBody (fun s => s) 0 1 2
        (.error "smtp down")).2.vehicles.any (fun v => v.id == 2)) = true := by
  have h := c8_email_error_does_not_fail_registration emptyStore fixDriverBody
    (fun s => s) 0 1 2 "smtp down" "driver@unisabana.edu.co" (by decide)
    (by decide) (by decide) (by decide) (by decide) (by decide)
    (Or.inr (by decide)) (Or.inl (by decide)) (by decide)
    (fun _ => ⟨by decide, by decide, fixVehicleBody, rfl, by decide, by decide,
      by decide, by decide⟩)
  exact ⟨⟨by decide, by decide, by decide⟩, h.1, h.2.1, h.2.2.1 (by decide)⟩

/-! ## Auth middleware coverage -/

theorem jsStartsWith_bearer_append (tok : String) :
    jsStartsWith ("Bearer " ++ tok) "Bearer " = true := by
  rw [jsStartsWith, String.data_append, List.isPrefixOf_iff_prefix]
  exact List.prefix_append _ _

theorem jsDrop_bearer_append (tok : String) :
    jsDrop ("Bearer " ++ tok) 7 = tok := by
  rw [jsDrop, String.data_append,
    show (7 : Nat) = ("Bearer ".data).length by rfl, List.drop_left]

/-- C7 counterexample: `GET /trips` and `POST /trips/tariff/suggest` are
registered without `requireAuth`, although neither is in the spec's
exempt list. -/
theorem c7_public_endpoints_counterexample :
    ((⟨"GET", "/trips", false⟩ : Endpoint) ∈ routingTable
      ∧ specPublicPath "GET" "/trips" = false)
    ∧ ((⟨"POST", "/trips/tariff/suggest", false⟩ : Endpoint) ∈ routingTable
      ∧ specPublicPath "POST" "/trips/tariff/suggest" = false) := by
  decide

/-- C7 (amended): every registered endpoint outside the *enlarged*
exempt list — the spec's list plus `GET /trips`,
`POST /trips/tariff/suggest`, `GET /maps/distance`,
`POST /maps/calculate`, `GET /maps/transmilenio/{routes,stations}`, and
the app-level `GET /`, `/uploads`, and `/api-docs` — carries
`requireAuth` (for the `/ratings` and `/navigation` routers, whose
files are not under src/, auth-guarding is modelled from spec §4.5),
and `requireAuth` answers 401 for a missing header, a non-Bearer
header, an unverifiable token, and a revoked token. -/
theorem c7_auth_coverage_amended :
    (routingTable.all
      (fun ep => codePublicPath ep.method ep.path || ep.requiresAuth)) = true
    ∧ (∀ (verify : String → Option Nat) (revoked : String → Bool),
        requireAuthCheck none verify revoked = .error (401, "No token"))
    ∧ (∀ (hdr : String) (verify : String → Option Nat) (revoked : String → Bool),
        jsStartsWith hdr "Bearer " = false →
        requireAuthCheck (some hdr) verify revoked = .error (401, "No token"))
    ∧ (∀ (tok : String) (verify : String → Option Nat) (revoked : String → Bool),
        tok ≠ "" → verify tok = none →
        requireAuthCheck (some ("Bearer " ++ tok)) verify revoked
          = .error (401, "Invalid token"))
    ∧ (∀ (tok : String) (verify : String → Option Nat) (revoked : String → Bool)
        (c : Nat), tok ≠ "" → verify tok = some c → revoked tok = true →
        requireAuthCheck (some ("Bearer " ++ tok)) verify revoked
          = .error (401, "Invalid token")) := by
  refine ⟨by decide, fun verify revoked => rfl, ?_, ?_, ?_⟩
  · intro hdr verify revoked hsw
    simp [requireAuthCheck, hsw]
  · intro tok verify revoked htok hv
    simp [requireAuthCheck, jsStartsWith_bearer_append, jsDrop_bearer_append,
      htok, hv]
  · intro tok verify revoked c htok hv hrev
    simp [requireAuthCheck, jsStartsWith_bearer_append, jsDrop_bearer_append,
      htok, hv, hrev]

/-- Witness for C7 (amended): a non-Bearer header and an unverifiable
bearer token are both rejected with 401. -/
theorem c7_auth_coverage_amended_witness :
    (jsStartsWith "Basic abc" "Bearer " = false ∧ ("abc" : String) ≠ "") ∧
    requireAuthCheck (some "Basic abc") (fun _ => some 1) (fun _ => false)
      = .error (401, "No token") ∧
    requireAuthCheck (some ("Bearer " ++ "abc")) (fun _ => none) (fun _ => false)
      = .error (401, "Invalid token") := by
  refine ⟨⟨by decide, by decide⟩, ?_, ?_⟩
  · exact c7_auth_coverage_amended.2.2.1 "Basic abc" (fun _ => some 1)
      (fun _ => false) (by decide)
  · exact c7_auth_coverage_amended.2.2.2.1 "abc" (fun _ => none)
      (fun _ => false) (by decide) rfl

/-! ## Vehicle deletion -/

theorem contains_filter_ne (l : List String) (s : String) :
    (l.filter (fun x => x != s)).contains s = false := by
  induction l with
  | nil => rfl
  | cons x xs ih =>
    by_cases hx : x = s
    · simp [List.filter_cons, hx, ih]
    · simp [List.filter_cons, hx, ih]
      exact fun h => hx h.symm

/-- C9 counterexample: owner 1 has vehicles 10, 20, 30 (active is 20,
whose SOAT is expired; vehicle 10 is the oldest with valid documents).
Deleting the non-active vehicle 30 succeeds, but activeVehicle stays 20
instead of being recomputed to 10, the value the claim's recomputation
rule yields. -/
theorem c9_delete_vehicle_counterexample :
    (deleteVehicle fixDelStore 1 30 0).1 = (200, "ok")
    ∧ (deleteVehicle fixDelStore 1 30 0).2.vehicles
        = [fixVeh 10 1 100 100, fixVeh 20 2 (-5) 100]
    ∧ (deleteVehicle fixDelStore 1 30 0).2.users.find? (fun u => u.id == 1)
        = some fixDelUser
    ∧ fixDelUser.activeVehicle = some 20
    ∧ specRecomputedActive
        ((deleteVehicle fixDelStore 1 30 0).2.vehicles.filter
          (fun v => v.owner == 1)) 0 = some 10
    ∧ fixDelUser.activeVehicle ≠ some 10 := by
  decide

theorem deleteVehicle_blocked (st : Store) (caller vid : Nat) (now : Int)
    (tr : Trip)
    (hb : st.trips.find? (fun t => t.vehicle == vid && t.driver == caller &&
      (t.status == TripStatus.scheduled || t.status == TripStatus.full) &&
      now ≤ t.departureAt) = some tr) :
    deleteVehicle st caller vid now =
      ((400, "No puedes eliminar este vehículo mientras tenga viajes activos programados"), st) := by
  simp only [deleteVehicle, hb]
  rfl

theorem deleteVehicle_not_blocked_status (st : Store) (caller vid : Nat)
    (now : Int)
    (hb : st.trips.find? (fun t => t.vehicle == vid && t.driver == caller &&
      (t.status == TripStatus.scheduled || t.status == TripStatus.full) &&
      now ≤ t.departureAt) = none) :
    ((deleteVehicle st caller vid now).1 = (404, "Vehículo no encontrado")
      ∧ (deleteVehicle st caller vid now).2 = st)
    ∨ ((deleteVehicle st caller vid now).1 = (200, "ok")
        ∧ (deleteVehicle st caller vid now).2.vehicles =
          eraseFirst (fun v => v.id == vid && v.owner == caller) st.vehicles) := by
  simp only [deleteVehicle, hb, Option.isSome_none, Bool.false_eq_true, if_false]
  rcases hv : st.vehicles.find? (fun v => v.id == vid && v.owner == caller)
    with _ | veh
  · simp only [hv]
    left
    exact ⟨trivial, trivial⟩
  · simp only [hv]
    rcases hu : st.users.find? (fun u => u.id == caller) with _ | u
    · simp only [hu]
      right
      exact ⟨trivial, trivial⟩
    · simp only [hu]
      rcases hr : sortByCreatedAt ((eraseFirst
          (fun v => v.id == vid && v.owner == caller) st.vehicles).filter
          (fun v => v.owner == caller)) with _ | ⟨first, rest⟩
      · simp only [hr]
        right
        exact ⟨trivial, trivial⟩
      · simp only [hr]
        right
        exact ⟨trivial, trivial⟩

/-- C9 (amended): `DELETE /vehicles/:id` is refused with
BLOCKED_BY_ACTIVE_TRIPS exactly when the owner has a scheduled/full trip
with this vehicle departing at or after now (any 400 leaves the store
unchanged); otherwise the vehicle is removed and the owner recomputed:
with no vehicles left the driver role is stripped, activeVehicle cleared
and activeRole falls back to passenger; with vehicles left the driver
role is ensured and activeVehicle is set to the first remaining vehicle
with valid documents (or the oldest otherwise) ONLY when the deleted
vehicle was the active one or no active vehicle was set — otherwise
activeVehicle is unchanged. -/
theorem c9_delete_vehicle_amended (st : Store) (caller vid : Nat) (now : Int) :
    (((deleteVehicle st caller vid now).1 =
        (400, "No puedes eliminar este vehículo mientras tenga viajes activos programados")) ↔
      ∃ tr ∈ st.trips, tr.vehicle = vid ∧ tr.driver = caller ∧
        (tr.status = .scheduled ∨ tr.status = .full) ∧ now ≤ tr.departureAt)
    ∧ ((deleteVehicle st caller vid now).1.1 = 400 →
        (deleteVehicle st caller vid now).2 = st)
    ∧ (∀ u,
        st.trips.find? (fun t => t.vehicle == vid && t.driver == caller &&
          (t.status == TripStatus.scheduled || t.status == TripStatus.full) &&
          now ≤ t.departureAt) = none →
        (st.vehicles.find? (fun v => v.id == vid && v.owner == caller)).isSome = true →
        st.users.find? (fun w => w.id == caller) = some u →
        (deleteVehicle st caller vid now).1 = (200, "ok")
        ∧ (deleteVehicle st caller vid now).2.vehicles
            = eraseFirst (fun v => v.id == vid && v.owner == caller) st.vehicles
        ∧ ∃ u1, (deleteVehicle st caller vid now).2.users.find?
              (fun w => w.id == caller) = some u1
          ∧ (sortByCreatedAt ((eraseFirst (fun v => v.id == vid && v.owner == caller)
                st.vehicles).filter (fun v => v.owner == caller)) = [] →
              u1.roles.contains "driver" = false
              ∧ u1.activeVehicle = none
              ∧ u1.activeRole =
                  (if u.activeRole = "driver" then "passenger" else u.activeRole))
          ∧ (sortByCreatedAt ((eraseFirst (fun v => v.id == vid && v.owner == caller)
                st.vehicles).filter (fun v => v.owner == caller)) ≠ [] →
              u1.roles.contains "driver" = true
              ∧ u1.activeVehicle =
                  (if u.activeVehicle = none ∨ u.activeVehicle = some vid then
                    specRecomputedActive ((eraseFirst (fun v => v.id == vid &&
                      v.owner == caller) st.vehicles).filter
                      (fun v => v.owner == caller)) now
                  else u.activeVehicle))) := by
  refine ⟨?_, ?_, ?_⟩
  · rcases hb : st.trips.find? (fun t => t.vehicle == vid && t.driver == caller &&
        (t.status == TripStatus.scheduled || t.status == TripStatus.full) &&
        now ≤ t.departureAt) with _ | tr
    · have hs := deleteVehicle_not_blocked_status st caller vid now hb
      constructor
      · intro h
        rcases hs with ⟨h1, -⟩ | ⟨h1, -⟩ <;> rw [h1] at h <;>
          · injection h with ha hb2
            exact absurd ha (by decide)
      · rintro ⟨tr, htr, h1, h2, h3, h4⟩
        exfalso
        rw [List.find?_eq_none] at hb
        apply hb tr htr
        simp only [Bool.and_eq_true, Bool.or_eq_true, beq_iff_eq,
          decide_eq_true_eq]
        exact ⟨⟨⟨h1, h2⟩, h3⟩, h4⟩
    · rw [deleteVehicle_blocked st caller vid now tr hb]
      have hp := List.find?_some hb
      simp only [Bool.and_eq_true, Bool.or_eq_true, beq_iff_eq,
        decide_eq_true_eq] at hp
      exact iff_of_true rfl
        ⟨tr, List.mem_of_find?_eq_some hb, hp.1.1.1, hp.1.1.2, hp.1.2, hp.2⟩
  · rcases hb : st.trips.find? (fun t => t.vehicle == vid && t.driver == caller &&
        (t.status == TripStatus.scheduled || t.status == TripStatus.full) &&
        now ≤ t.departureAt) with _ | tr
    · have hs := deleteVehicle_not_blocked_status st caller vid now hb
      intro h400
      rcases hs with ⟨h1, h2⟩ | ⟨h1, -⟩
      · exact h2
      · rw [h1] at h400
        exact absurd h400 (by decide)
    · rw [deleteVehicle_blocked st caller vid now tr hb]
      intro _
      rfl
  · intro u hb hv huser
    rw [Option.isSome_iff_exists] at hv
    obtain ⟨veh, hveh⟩ := hv
    have hq := List.find?_some huser
    simp only [deleteVehicle, hb, Option.isSome_none, Bool.false_eq_true,
      if_false, hveh, huser]
    rcases hr : sortByCreatedAt ((eraseFirst
        (fun v => v.id == vid && v.owner == caller) st.vehicles).filter
        (fun v => v.owner == caller)) with _ | ⟨first, rest⟩
    · simp only [hr]
      refine ⟨by trivial, by trivial, ?_⟩
      refine ⟨_, find?_updateFirst_self _ _ _ u huser hq, ?_, ?_⟩
      · intro _
        exact ⟨contains_filter_ne u.roles "driver", rfl, rfl⟩
      · intro hne
        exact absurd rfl hne
    · simp only [hr]
      refine ⟨by trivial, by trivial, ?_⟩
      refine ⟨_, find?_updateFirst_self _ _ _ u huser
        (by split <;> split <;> simpa using hq), ?_, ?_⟩
      · intro h
        exact absurd h (by simp)
      · intro _
        by_cases hcond : u.activeVehicle = none ∨ u.activeVehicle = some vid
        · constructor
          · simp only [if_pos hcond]
            split
            next h => simpa using h
            next h => simp
          · rw [if_pos hcond]
            unfold specRecomputedActive
            simp only [hr, if_pos hcond]
            split <;> rfl
        · constructor
          · simp only [if_neg hcond]
            split
            next h => simpa using h
            next h => simp
          · rw [if_neg hcond]
            simp only [if_neg hcond]
            split <;> rfl

/-- Witness for C9 (amended): deleting the non-active vehicle 30 of the
fixture owner succeeds with 200. -/
theorem c9_delete_vehicle_amended_witness :
    (fixDelStore.trips.find? (fun t => t.vehicle == 30 && t.driver == 1 &&
        (t.status == TripStatus.scheduled || t.status == TripStatus.full) &&
        (0 : Int) ≤ t.departureAt) = none
      ∧ (fixDelStore.vehicles.find?
          (fun v => v.id == 30 && v.owner == 1)).isSome = true
      ∧ fixDelStore.users.find? (fun w => w.id == 1) = some fixDelUser) ∧
    (deleteVehicle fixDelStore 1 30 0).1 = (200, "ok") := by
  refine ⟨⟨by decide, by decide, by decide⟩, ?_⟩
  exact ((c9_delete_vehicle_amended fixDelStore 1 30 0).2.2 fixDelUser
    (by decide) (by decide) (by decide)).1

end Wheels
